import Mathlib

/-!
# Lookmax worker: request handler over a D1 store

A shallow embedding of `src/index.js` (the Cloudflare Worker behind Lookmax) and
theorems about its read and write operations.

Modelling decisions, all visible in the definitions below:

* A JavaScript number is a `JNum`: `NaN`, an infinity or a finite value, the finite
  ones being exact rationals (every finite double is one).  `request.json()` reads a
  literal such as `1e400` as `Infinity`.  Integers up to `2 ^ 53` are exact; the
  loop counter of `admin_boost` is incremented as a double is (`dblSucc`).
* A JavaScript value is a `JVal`: a JSON scalar, `undefined`, an array of
  non-negative integers, or an opaque non-primitive.
* The engine builtins `Number`, `parseInt(_, 10)` and `ToString` are taken as
  parameters (`Host`): every theorem holds for whatever they compute.
* A body is read through its properties.  A JSON body that is not an object reads
  `undefined` everywhere; the body `null`, on which `data.type` raises before any
  store access, is not modelled.
* The D1 store is four tables, each a list of rows in ascending `id` order; a
  row's `id` is its position, so `ORDER BY id` is the list order and an
  `INSERT` appends.  A cell is NULL, a number, a text or a BLOB (`Cell`); `bind` is
  the D1 parameter conversion and `sqlEq` the SQL `=` (never true on NULL).
* A `date` cell holds an ISO-8601 text written by `toISOString`; the model keeps
  the time value in milliseconds that this text denotes.
* A store statement may throw.  `ok k` tells whether the `k`-th statement of a
  request runs; a parameter that does not bind throws as well.  Either way the
  surrounding `catch` answers 500.
* The loop of `admin_boost` need not end.  `handlePost` takes a bound `fuel` on the
  number of loop tests and yields `none` when the loop is still running after that
  many; no other branch consumes fuel.
* One clock reading `now` serves a request: a Worker's clock does not advance
  between two store calls' continuations.
-/

namespace Lookmax

/-! ## JavaScript values -/

/-- A JavaScript number: `NaN`, `Infinity` or `-Infinity`, or a finite value. -/
inductive JNum
  | nan
  | inf (negative : Bool)
  | fin (q : ℚ)
  deriving DecidableEq

/-- ECMAScript `ToBoolean` on a number: `0` and `NaN` are falsy. -/
def JNum.truthy : JNum → Bool
  | .nan => false
  | .inf _ => true
  | .fin q => decide (q ≠ 0)

/-- The comparison `x <= 0`. -/
def JNum.leZero : JNum → Bool
  | .nan => false
  | .inf negative => negative
  | .fin q => decide (q ≤ 0)

/-- The comparison `i < n` for a counter `i` holding a non-negative integer. -/
def JNum.above (n : JNum) (i : Nat) : Bool :=
  match n with
  | .nan => false
  | .inf negative => !negative
  | .fin q => decide ((i : ℚ) < q)

/-- The increment `i++` of a double holding a non-negative integer: exact below
`2 ^ 53`; at `2 ^ 53` the sum `2 ^ 53 + 1` rounds back to `2 ^ 53`. -/
def dblSucc (i : Nat) : Nat := if i < 2 ^ 53 then i + 1 else i

/-- A JavaScript value: a JSON scalar, `undefined` for an absent property, an array
of non-negative integers, or an opaque non-primitive (any other array, an object, a
function) named by a description. -/
inductive JVal
  | undefined
  | null
  | bool (b : Bool)
  | num (x : JNum)
  | str (s : String)
  | arr (xs : List Nat)
  | obj (desc : String)
  deriving DecidableEq

/-- ECMAScript `ToBoolean`. -/
def JVal.truthy : JVal → Bool
  | .undefined => false
  | .null => false
  | .bool b => b
  | .num x => x.truthy
  | .str s => decide (s ≠ "")
  | .arr _ => true
  | .obj _ => true

/-- The JavaScript expression `a || b`. -/
def jsOr (a b : JVal) : JVal := if a.truthy then a else b

/-- Engine builtins the handler calls: `Number v` is `Number(v)`, `parseInt v` is
`parseInt(v, 10)`, and `ToString v` is the string conversion used for property keys
and string concatenation. -/
structure Host where
  Number : JVal → JNum
  parseInt : JVal → JNum
  ToString : JVal → String

/-- The parsed JSON body `data`, read through the properties the handler uses. A
property that is absent (or a body that is not an object) reads `undefined`. -/
structure Body where
  type : JVal := .undefined
  userEmail : JVal := .undefined
  targetId : JVal := .undefined
  rating : JVal := .undefined
  text : JVal := .undefined
  userName : JVal := .undefined
  auth : JVal := .undefined
  id : JVal := .undefined
  name : JVal := .undefined
  photo : JVal := .undefined
  description : JVal := .undefined
  tg : JVal := .undefined
  music : JVal := .undefined
  count : JVal := .undefined
  email : JVal := .undefined
  nickname : JVal := .undefined

/-! ## The store -/

/-- A stored value: NULL, a finite number, a text or a BLOB. -/
inductive Cell
  | null
  | num (q : ℚ)
  | text (s : String)
  | blob (bytes : List Nat)
  deriving DecidableEq

/-- The JavaScript value a result row carries for a cell; a BLOB comes back as the
array of its bytes. -/
def Cell.toJVal : Cell → JVal
  | .null => .null
  | .num q => .num (.fin q)
  | .text s => .str s
  | .blob bytes => .arr bytes

/-- D1 parameter conversion in `.bind(...)`.  A finite number and a string are kept;
a boolean becomes 1 or 0; `NaN` and the infinities, which the parameter list carries
as JSON `null`, are stored as NULL; an array of bytes is stored as a BLOB; `undefined`
and every other non-primitive are refused (the call throws). -/
def bind : JVal → Option Cell
  | .undefined => none
  | .null => some .null
  | .bool b => some (.num (if b then 1 else 0))
  | .num (.fin q) => some (.num q)
  | .num _ => some .null
  | .str s => some (.text s)
  | .arr xs => if xs.all (fun b => decide (b < 256)) then some (.blob xs) else none
  | .obj _ => none

/-- SQL `a = b` as a `WHERE` condition: not satisfied when either side is NULL. -/
def sqlEq (a b : Cell) : Bool :=
  decide (a ≠ .null) && decide (b ≠ .null) && decide (a = b)

/-- A row of `candidates`. -/
structure Candidate where
  id : Cell
  name : Cell
  photo : Cell
  description : Cell
  tg : Cell
  approved : Cell
  music : Cell
  deriving DecidableEq

/-- A row of `votes` (its `id` is its position in the table). -/
structure Vote where
  candidate_id : Cell
  score : Cell
  date : Int
  email : Cell
  deriving DecidableEq

/-- A row of `comments` (its `id` is its position in the table). -/
structure Comment where
  candidate_id : Cell
  text : Cell
  author : Cell
  date : Int
  email : Cell
  deriving DecidableEq

/-- A row of `users`. -/
structure User where
  email : Cell
  nickname : Cell
  deriving DecidableEq

/-- The D1 database behind `env.DB`. -/
structure DB where
  candidates : List Candidate
  votes : List Vote
  comments : List Comment
  users : List User
  deriving DecidableEq

/-- The database with no rows. -/
def DB.empty : DB := ⟨[], [], [], []⟩

/-- Position of the first row satisfying `p`: the `id` that
`SELECT id ... WHERE p` hands to `.first()`. -/
def firstIdx {α : Type} (p : α → Bool) : List α → Option Nat
  | [] => none
  | x :: xs => if p x then some 0 else (firstIdx p xs).map (· + 1)

/-- The statement `UPDATE ... WHERE id = i`. -/
def updateAt {α : Type} (i : Nat) (f : α → α) : List α → List α
  | [] => []
  | x :: xs =>
    match i with
    | 0 => f x :: xs
    | j + 1 => x :: updateAt j f xs

/-! ## Responses -/

/-- One entry of the snapshot's `candidates` array. -/
structure CandidateView where
  id : JVal
  name : JVal
  photo : JVal
  description : JVal
  tg : JVal
  music : JVal
  deriving DecidableEq

/-- The object handed to `json(...)` by a successful GET. -/
structure Snapshot where
  candidates : List CandidateView
  votes : List (JVal × JVal × Int × JVal)
  comments : List (JVal × JVal × JVal × Int × JVal)
  deriving DecidableEq

/-- A response body: plain text, the JSON object carrying a store error's message,
or the snapshot. -/
inductive Payload
  | text (s : String)
  | error
  | snapshot (s : Snapshot)
  deriving DecidableEq

/-- An HTTP response. -/
structure Response where
  status : Nat
  body : Payload
  deriving DecidableEq

/-- The helper `text(body, status)`. -/
def text (body : String) (status : Nat) : Response := ⟨status, .text body⟩

/-- The response built in every `catch` block and by the missing-binding guard of
`handleGet`: `json({ error }, 500)`. -/
def storeError : Response := ⟨500, .error⟩

/-- The shared admin secret. -/
def AUTH_KEY : String := "ZarechyeMax2024"

/-- The guest sentinel used for a missing `userEmail` or `userName`. -/
def guest : String := "Гость"

/-! ## `handlePost` -/

/-- The branch `type === "vote"`. -/
def postVote (H : Host) (now : Int) (ok : Nat → Bool) (data : Body) (db : DB) :
    Response × DB :=
  let email := jsOr data.userEmail (.str guest)
  let targetId := data.targetId
  match H.Number data.rating with
  | .fin rating =>
    if !targetId.truthy then (text "Bad request" 400, db)
    else
      match bind targetId, bind email with
      | some c, some e =>
        if !ok 0 then (storeError, db)
        else
          match firstIdx (fun v => sqlEq v.candidate_id c && sqlEq v.email e) db.votes with
          | some existing =>
            if !ok 1 then (storeError, db)
            else
              (text "Vote updated" 200,
                { db with
                  votes := updateAt existing
                    (fun v => { v with score := .num rating, date := now }) db.votes })
          | none =>
            if !ok 1 then (storeError, db)
            else
              (text "Vote saved" 200,
                { db with votes := db.votes ++ [⟨c, .num rating, now, e⟩] })
      | _, _ => (storeError, db)
  | _ => (text "Bad request" 400, db)

/-- The row read by `SELECT date FROM comments WHERE email = ? ORDER BY id DESC LIMIT 1`. -/
def lastComment (e : Cell) (comments : List Comment) : Option Comment :=
  (comments.filter (fun c => sqlEq c.email e)).getLast?

/-- The branch `type === "comment"`. -/
def postComment (now : Int) (ok : Nat → Bool) (data : Body) (db : DB) : Response × DB :=
  let email := jsOr data.userEmail (.str guest)
  let targetId := data.targetId
  let text_ := data.text
  let userName := jsOr data.userName (.str guest)
  if !targetId.truthy || !text_.truthy then (text "Bad request" 400, db)
  else
    match bind email with
    | none => (storeError, db)
    | some e =>
      if !ok 0 then (storeError, db)
      else
        let tooSoon :=
          match lastComment e db.comments with
          | some row => decide (now - row.date < 5000)
          | none => false
        if tooSoon then (text "Wait before commenting" 429, db)
        else
          match bind targetId, bind text_, bind userName with
          | some c, some t, some a =>
            if !ok 1 then (storeError, db)
            else
              (text "Comment saved" 200,
                { db with comments := db.comments ++ [⟨c, t, a, now, e⟩] })
          | _, _, _ => (storeError, db)

/-- The statement `INSERT INTO candidates ... ON CONFLICT(id) DO UPDATE SET ...`. -/
def upsertCandidate (row : Candidate) (candidates : List Candidate) : List Candidate :=
  if candidates.any (fun r => sqlEq r.id row.id) then
    candidates.map (fun r =>
      if sqlEq r.id row.id then
        { r with
          name := row.name, photo := row.photo, description := row.description,
          tg := row.tg, music := row.music, approved := .text "НЕТ" }
      else r)
  else candidates ++ [row]

/-- The branch `type === "add_candidate"`. -/
def postAddCandidate (ok : Nat → Bool) (data : Body) (db : DB) : Response × DB :=
  if data.auth ≠ .str AUTH_KEY then (text "Forbidden: Wrong Auth Key" 403, db)
  else
    let id := data.id
    let name := data.name
    let photo := jsOr data.photo (.str "")
    let description := jsOr data.description (.str "")
    let tg := jsOr data.tg (.str "")
    let music := jsOr data.music (.str "")
    if !id.truthy || !name.truthy then (text "Bad request" 400, db)
    else
      match bind id, bind name, bind photo, bind description, bind tg, bind music with
      | some i, some n, some p, some d, some t, some m =>
        if !ok 0 then (storeError, db)
        else
          (text "Success" 200,
            { db with candidates := upsertCandidate ⟨i, n, p, d, t, .text "НЕТ", m⟩ db.candidates })
      | _, _, _, _, _, _ => (storeError, db)

/-- The loop `for (let i = 0; i < n; i++)` of `admin_boost`, observed for at most
`fuel` tests of `i < n`, with counter `i` and `k` statements issued so far.  Each
iteration inserts `row`; a statement that throws ends the loop and keeps the rows
inserted so far.  The result is `none` while the loop is still running; otherwise the
flag tells whether the loop ran to its end. -/
def boostLoop (ok : Nat → Bool) (row : Vote) (n : JNum) :
    Nat → Nat → Nat → List Vote → Option (Bool × List Vote)
  | 0, _, _, _ => none
  | fuel + 1, i, k, votes =>
    if n.above i then
      if ok k then boostLoop ok row n fuel (dblSucc i) (k + 1) (votes ++ [row])
      else some (false, votes)
    else some (true, votes)

/-- The branch `type === "admin_boost"`. -/
def postAdminBoost (H : Host) (now : Int) (ok : Nat → Bool) (fuel : Nat) (data : Body)
    (db : DB) : Option (Response × DB) :=
  if data.auth ≠ .str AUTH_KEY then some (text "Forbidden: Wrong Auth Key" 403, db)
  else
    let targetId := data.targetId
    let count := if (H.parseInt data.count).truthy then H.parseInt data.count else .fin 0
    if !targetId.truthy || count.leZero then some (text "Invalid parameters" 400, db)
    else
      let n := if (H.parseInt data.count).truthy then H.parseInt data.count else .fin 0
      match bind targetId with
      | none => some (storeError, db)
      | some c =>
        match boostLoop ok ⟨c, .num 5, now, .text "Admin"⟩ n fuel 0 0 db.votes with
        | none => none
        | some (true, votes) =>
          some (text ("Boost applied: " ++ H.ToString (.num n) ++ " votes") 200,
            { db with votes := votes })
        | some (false, votes) => some (storeError, { db with votes := votes })

/-- The branch `type === "user" || type === "user_register"`. -/
def postUser (ok : Nat → Bool) (data : Body) (db : DB) : Response × DB :=
  let email := jsOr (jsOr data.userEmail data.email) (.str "")
  let nickname := jsOr (jsOr data.nickname data.userName) (.str "")
  if !email.truthy || !nickname.truthy then (text "Missing email or nickname" 400, db)
  else
    match bind email, bind nickname with
    | some e, some n =>
      if !ok 0 then (storeError, db)
      else if db.users.any (fun u => sqlEq u.email e) then
        if !ok 1 then (storeError, db)
        else
          (text "User updated" 200,
            { db with
              users := db.users.map (fun u =>
                if sqlEq u.email e then { u with nickname := n } else u) })
      else
        if !ok 1 then (storeError, db)
        else (text "User saved" 200, { db with users := db.users ++ [⟨e, n⟩] })
    | _, _ => (storeError, db)

/-- The function `handlePost(data, env)`; `env` is the binding `env.DB`, absent when
the Worker has no database configured.  The result pairs the response with the
database after the request; it is `none` when the request has not been answered
within `fuel` loop tests. -/
def handlePost (H : Host) (now : Int) (ok : Nat → Bool) (fuel : Nat) (data : Body)
    (env : Option DB) : Option (Response × Option DB) :=
  match env with
  | none => some (text "DB not configured" 500, none)
  | some db =>
    let type := data.type
    let answer : Option (Response × DB) :=
      if type = .str "vote" then some (postVote H now ok data db)
      else if type = .str "comment" then some (postComment now ok data db)
      else if type = .str "add_candidate" then some (postAddCandidate ok data db)
      else if type = .str "admin_boost" then postAdminBoost H now ok fuel data db
      else if type = .str "user" ∨ type = .str "user_register" then
        some (postUser ok data db)
      else some (text "Unknown type" 400, db)
    answer.map (fun r => (r.1, some r.2))

/-! ## `handleGet` -/

/-- The prototype of a plain object used as a map: `Object.prototype` as the literal
`{}` has it, `null`, or an array put there through `__proto__`. -/
inductive Proto
  | objectPrototype
  | null
  | array (xs : List Nat)
  deriving DecidableEq

/-- A plain JavaScript object used as a map: its own properties (latest first) and
its prototype. -/
structure JsObject where
  own : List (String × JVal)
  proto : Proto
  deriving DecidableEq

/-- The object literal `{}`. -/
def JsObject.new : JsObject := ⟨[], .objectPrototype⟩

/-- The data properties of `Object.prototype`. -/
def objectPrototypeKeys : List String :=
  ["constructor", "hasOwnProperty", "isPrototypeOf", "propertyIsEnumerable",
   "toLocaleString", "toString", "valueOf", "__defineGetter__", "__defineSetter__",
   "__lookupGetter__", "__lookupSetter__"]

/-- The data properties of `Array.prototype`. -/
def arrayPrototypeKeys : List String :=
  ["length", "constructor", "at", "concat", "copyWithin", "entries", "every", "fill",
   "filter", "find", "findIndex", "findLast", "findLastIndex", "flat", "flatMap",
   "forEach", "includes", "indexOf", "join", "keys", "lastIndexOf", "map", "pop", "push",
   "reduce", "reduceRight", "reverse", "shift", "slice", "some", "sort", "splice",
   "toLocaleString", "toReversed", "toSorted", "toSpliced", "toString", "unshift",
   "values", "with"]

/-- What a read of `k` finds on `Object.prototype` when the object read has the
prototype `self`: that prototype for the accessor `__proto__`, a builtin function for
a data property, else `undefined`. -/
def objectPrototypeGet (self : JVal) (k : String) : JVal :=
  if k = "__proto__" then self
  else if k ∈ objectPrototypeKeys then .obj ("function " ++ k)
  else .undefined

/-- What a read of `k` finds on the array `xs` and its prototype chain: an element
for an index, the length, a builtin of `Array.prototype`, else what
`Object.prototype` gives. -/
def arrayGet (xs : List Nat) (k : String) : JVal :=
  match (List.range xs.length).find? (fun i => decide (toString i = k)) with
  | some i => .num (.fin (xs.getD i 0))
  | none =>
    if k = "length" then .num (.fin xs.length)
    else if k ∈ arrayPrototypeKeys then .obj ("function " ++ k)
    else objectPrototypeGet (.arr xs) k

/-- The property read `o[k]`: an own property, else what the prototype chain gives. -/
def JsObject.get (o : JsObject) (k : String) : JVal :=
  match o.own.lookup k with
  | some v => v
  | none =>
    match o.proto with
    | .objectPrototype => objectPrototypeGet (.obj "Object.prototype") k
    | .null => .undefined
    | .array xs => arrayGet xs k

/-- The assignment `o[k] = v` of a value read from a cell.  While the object has a
prototype, the key `__proto__` reaches the accessor of `Object.prototype` and creates
no property: `null` and an array replace the prototype, any other value is ignored. -/
def JsObject.set (o : JsObject) (k : String) (v : JVal) : JsObject :=
  if k = "__proto__" ∧ o.proto ≠ .null then
    match v with
    | .null => { o with proto := .null }
    | .arr xs => { o with proto := .array xs }
    | _ => o
  else { o with own := (k, v) :: o.own }

/-- The property key a cell turns into. -/
def propertyKey (H : Host) : Cell → String
  | .text s => s
  | c => H.ToString c.toJVal

/-- The loop filling `usersMap`. -/
def usersMap (H : Host) (users : List User) : JsObject :=
  users.foldl (fun m row => m.set (propertyKey H row.email) row.nickname.toJVal) JsObject.new

/-- The function `handleGet(env)`. -/
def handleGet (H : Host) (ok : Nat → Bool) (env : Option DB) : Response :=
  match env with
  | none => storeError
  | some db =>
    if !(ok 0 && ok 1 && ok 2 && ok 3) then storeError
    else
      let candidatesRows := db.candidates.filter (fun r => sqlEq r.approved (.text "ДА"))
      let votesRows := db.votes
      let commentsRows := db.comments
      let usersRows := db.users
      let usersMap := usersMap H usersRows
      let candidates := candidatesRows.map (fun r =>
        (⟨r.id.toJVal, r.name.toJVal, jsOr r.photo.toJVal (.str ""),
          jsOr r.description.toJVal (.str ""), jsOr r.tg.toJVal (.str ""),
          jsOr r.music.toJVal (.str "")⟩ : CandidateView))
      let votes := votesRows.map (fun r =>
        (r.candidate_id.toJVal, r.score.toJVal, r.date, r.email.toJVal))
      let comments := commentsRows.map (fun r =>
        let nick := jsOr (usersMap.get (propertyKey H r.email)) r.author.toJVal
        (r.candidate_id.toJVal, nick, r.text.toJVal, r.date, r.email.toJVal))
      ⟨200, .snapshot ⟨candidates, votes, comments⟩⟩

/-! ## Auxiliary definitions for the statements -/

/-- Store states reachable from the empty store by answered POST requests. -/
inductive Reachable (H : Host) : DB → Prop
  | empty : Reachable H DB.empty
  | post (db db' : DB) (now : Int) (ok : Nat → Bool) (fuel : Nat) (data : Body)
      (r : Response) :
      Reachable H db → handlePost H now ok fuel data (some db) = some (r, some db') →
      Reachable H db'

/-- The latest comment by `e` (the one with the greatest id, if any) is less than
5000 ms older than `now`. -/
def RecentComment (e : Cell) (now : Int) (comments : List Comment) : Prop :=
  ∃ pre last post, comments = pre ++ last :: post ∧ last.email = e ∧
    (∀ x ∈ post, x.email ≠ e) ∧ now - last.date < 5000

/-- An optional field as the snapshot exposes it: the empty string when the cell is NULL
(or the number 0, falsy as well), the stored value otherwise. -/
def orEmpty : Cell → JVal
  | .null => .str ""
  | .num q => if q = 0 then .str "" else .num (.fin q)
  | .text s => .str s
  | .blob bytes => .arr bytes

/-- The public projection of a candidate row: `id`, `name` and the four optional fields;
`approved` is not part of it. -/
def exposed (r : Candidate) : CandidateView :=
  ⟨r.id.toJVal, r.name.toJVal, orEmpty r.photo, orEmpty r.description, orEmpty r.tg,
    orEmpty r.music⟩

/-- The candidate rows with id `i`. -/
def candidatesWithId (i : Cell) (candidates : List Candidate) : List Candidate :=
  candidates.filter (fun r => decide (r.id = i))

/-- The candidate rows with an id other than `i`. -/
def candidatesOtherThan (i : Cell) (candidates : List Candidate) : List Candidate :=
  candidates.filter (fun r => decide (r.id ≠ i))

/-- The user rows with email `e`. -/
def usersWithEmail (e : Cell) (users : List User) : List User :=
  users.filter (fun u => decide (u.email = e))

/-- The user rows with an email other than `e`. -/
def usersOtherThan (e : Cell) (users : List User) : List User :=
  users.filter (fun u => decide (u.email ≠ e))

/-- The vote rows held for the pair `(c, e)`. -/
def votesFor (c e : Cell) (votes : List Vote) : List Vote :=
  votes.filter (fun v => decide (v.candidate_id = c ∧ v.email = e))

/-- A host used for concrete evaluations.  It follows ECMAScript on JSON numbers
that are integers below `10 ^ 21` in absolute value (and, for `Number`, on every
number, boolean and `null`); on other inputs it is a placeholder, and no statement
below evaluates it there. -/
def sampleHost : Host where
  Number := fun v =>
    match v with
    | .num x => x
    | .bool b => .fin (if b then 1 else 0)
    | .null => .fin 0
    | _ => .nan
  parseInt := fun v =>
    match v with
    | .num (.fin q) => if q.den = 1 ∧ q.num.natAbs < 10 ^ 21 then .fin q else .nan
    | _ => .nan
  ToString := fun v =>
    match v with
    | .str s => s
    | .num (.fin q) => if q.den = 1 ∧ q.num.natAbs < 10 ^ 21 then toString q.num else "NaN"
    | _ => ""

/-! ## Unfolding lemmas -/

theorem handlePost_vote (H : Host) (now : Int) (ok : Nat → Bool) (fuel : Nat) (data : Body)
    (db : DB) (h : data.type = .str "vote") :
    handlePost H now ok fuel data (some db)
      = some ((postVote H now ok data db).1, some (postVote H now ok data db).2) := by
  simp [handlePost, h]

theorem handlePost_comment (H : Host) (now : Int) (ok : Nat → Bool) (fuel : Nat) (data : Body)
    (db : DB) (h : data.type = .str "comment") :
    handlePost H now ok fuel data (some db)
      = some ((postComment now ok data db).1, some (postComment now ok data db).2) := by
  simp [handlePost, h]

theorem handlePost_add_candidate (H : Host) (now : Int) (ok : Nat → Bool) (fuel : Nat)
    (data : Body) (db : DB) (h : data.type = .str "add_candidate") :
    handlePost H now ok fuel data (some db)
      = some ((postAddCandidate ok data db).1, some (postAddCandidate ok data db).2) := by
  simp [handlePost, h]

theorem handlePost_admin_boost (H : Host) (now : Int) (ok : Nat → Bool) (fuel : Nat)
    (data : Body) (db : DB) (h : data.type = .str "admin_boost") :
    handlePost H now ok fuel data (some db)
      = (postAdminBoost H now ok fuel data db).map (fun r => (r.1, some r.2)) := by
  simp [handlePost, h]

theorem handlePost_user (H : Host) (now : Int) (ok : Nat → Bool) (fuel : Nat) (data : Body)
    (db : DB) (h : data.type = .str "user" ∨ data.type = .str "user_register") :
    handlePost H now ok fuel data (some db)
      = some ((postUser ok data db).1, some (postUser ok data db).2) := by
  rcases h with h | h <;> simp [handlePost, h]

/-! ## Frame lemmas per branch -/

theorem postVote_rejected (H : Host) (now : Int) (ok : Nat → Bool) (data : Body) (db : DB)
    (h : (postVote H now ok data db).1.status ≠ 200 ∧ (postVote H now ok data db).1.status ≠ 500) :
    (postVote H now ok data db).2 = db := by
  revert h
  unfold postVote
  simp only []
  repeat' split
  all_goals simp [text, storeError]

theorem postComment_rejected (now : Int) (ok : Nat → Bool) (data : Body) (db : DB)
    (h : (postComment now ok data db).1.status ≠ 200 ∧ (postComment now ok data db).1.status ≠ 500) :
    (postComment now ok data db).2 = db := by
  revert h
  unfold postComment
  simp only []
  repeat' split
  all_goals simp [text, storeError]

theorem postAddCandidate_rejected (ok : Nat → Bool) (data : Body) (db : DB)
    (h : (postAddCandidate ok data db).1.status ≠ 200 ∧
      (postAddCandidate ok data db).1.status ≠ 500) :
    (postAddCandidate ok data db).2 = db := by
  revert h
  unfold postAddCandidate
  simp only []
  repeat' split
  all_goals simp [text, storeError]

theorem postAdminBoost_rejected (H : Host) (now : Int) (ok : Nat → Bool) (fuel : Nat)
    (data : Body) (db : DB) (r : Response × DB)
    (hr : postAdminBoost H now ok fuel data db = some r)
    (h : r.1.status ≠ 200 ∧ r.1.status ≠ 500) : r.2 = db := by
  revert hr
  unfold postAdminBoost
  simp only []
  repeat' split
  all_goals
    intro hr
    first
    | (cases hr; first | rfl | simp [text, storeError] at h)
    | simp at hr

theorem postUser_rejected (ok : Nat → Bool) (data : Body) (db : DB)
    (h : (postUser ok data db).1.status ≠ 200 ∧ (postUser ok data db).1.status ≠ 500) :
    (postUser ok data db).2 = db := by
  revert h
  unfold postUser
  simp only []
  repeat' split
  all_goals simp [text, storeError]

/-! ## Rejected requests -/

/-- C3: an `add_candidate` or `admin_boost` request whose `auth` is not exactly the
fixed key is answered 403 and leaves all four tables as they were, whatever the other
fields hold and whatever the store would have done. -/
theorem admin_requires_auth (H : Host) (now : Int) (ok : Nat → Bool) (fuel : Nat)
    (data : Body) (db : DB)
    (htype : data.type = .str "add_candidate" ∨ data.type = .str "admin_boost")
    (hauth : data.auth ≠ .str "ZarechyeMax2024") :
    handlePost H now ok fuel data (some db)
      = some (⟨403, .text "Forbidden: Wrong Auth Key"⟩, some db) := by
  have hauth' : data.auth ≠ .str AUTH_KEY := hauth
  rcases htype with h | h
  · rw [handlePost_add_candidate H now ok fuel data db h]
    simp [postAddCandidate, hauth', text]
  · rw [handlePost_admin_boost H now ok fuel data db h]
    simp [postAdminBoost, hauth', text]

/-- C3, at a concrete request: `admin_boost` with a valid target and count but the
wrong key. -/
theorem admin_requires_auth_witness :
    handlePost sampleHost 0 (fun _ => true) 0
        { type := .str "admin_boost", auth := .str "zarechyemax2024",
          targetId := .str "c1", count := .num (.fin 3) } (some DB.empty)
      = some (⟨403, .text "Forbidden: Wrong Auth Key"⟩, some DB.empty) :=
  admin_requires_auth sampleHost 0 (fun _ => true) 0
    { type := .str "admin_boost", auth := .str "zarechyemax2024",
      targetId := .str "c1", count := .num (.fin 3) } DB.empty (Or.inr rfl) (by decide)

/-- C10: a POST answered 400, 403 or 429 leaves the store exactly as it was, for every
body (unknown types included) and whatever the store statements would have done. -/
theorem rejected_request_no_mutation (H : Host) (now : Int) (ok : Nat → Bool) (fuel : Nat)
    (data : Body) (db : DB) (r : Response) (env' : Option DB)
    (hres : handlePost H now ok fuel data (some db) = some (r, env'))
    (h : r.status = 400 ∨ r.status = 403 ∨ r.status = 429) :
    env' = some db := by
  have key : r.status ≠ 200 ∧ r.status ≠ 500 := by
    rcases h with hr | hr | hr <;> simp [hr]
  by_cases hv : data.type = .str "vote"
  · rw [handlePost_vote H now ok fuel data db hv] at hres
    cases hres
    rw [postVote_rejected H now ok data db key]
  by_cases hc : data.type = .str "comment"
  · rw [handlePost_comment H now ok fuel data db hc] at hres
    cases hres
    rw [postComment_rejected now ok data db key]
  by_cases ha : data.type = .str "add_candidate"
  · rw [handlePost_add_candidate H now ok fuel data db ha] at hres
    cases hres
    rw [postAddCandidate_rejected ok data db key]
  by_cases hb : data.type = .str "admin_boost"
  · rw [handlePost_admin_boost H now ok fuel data db hb] at hres
    cases hpb : postAdminBoost H now ok fuel data db with
    | none => rw [hpb] at hres; simp at hres
    | some x =>
      rw [hpb] at hres
      simp only [Option.map_some', Option.some.injEq, Prod.mk.injEq] at hres
      obtain ⟨h1, h2⟩ := hres
      rw [← h2, postAdminBoost_rejected H now ok fuel data db x hpb (by rw [h1]; exact key)]
  by_cases hu : data.type = .str "user" ∨ data.type = .str "user_register"
  · rw [handlePost_user H now ok fuel data db hu] at hres
    cases hres
    rw [postUser_rejected ok data db key]
  · simp only [not_or] at hu
    simp [handlePost, hv, hc, ha, hb, hu.1, hu.2] at hres
    exact hres.2.symm

/-- C10, at a concrete request: a comment without text on a store holding one vote. -/
theorem rejected_request_no_mutation_witness :
    handlePost sampleHost 0 (fun _ => true) 0 { type := .str "comment", targetId := .str "c1" }
        (some ⟨[], [⟨.text "c1", .num 4, 0, .text "a@b"⟩], [], []⟩)
      = some (⟨400, .text "Bad request"⟩,
          some ⟨[], [⟨.text "c1", .num 4, 0, .text "a@b"⟩], [], []⟩) ∧
    (Response.status ⟨400, .text "Bad request"⟩ = 400 ∨
      Response.status ⟨400, .text "Bad request"⟩ = 403 ∨
      Response.status ⟨400, .text "Bad request"⟩ = 429) ∧
    some (⟨[], [⟨.text "c1", .num 4, 0, .text "a@b"⟩], [], []⟩ : DB)
      = some ⟨[], [⟨.text "c1", .num 4, 0, .text "a@b"⟩], [], []⟩ :=
  ⟨by decide, Or.inl rfl,
    rejected_request_no_mutation sampleHost 0 (fun _ => true) 0
      { type := .str "comment", targetId := .str "c1" }
      ⟨[], [⟨.text "c1", .num 4, 0, .text "a@b"⟩], [], []⟩ ⟨400, .text "Bad request"⟩
      (some ⟨[], [⟨.text "c1", .num 4, 0, .text "a@b"⟩], [], []⟩) (by decide) (Or.inl rfl)⟩

/-! ## Votes -/

theorem sqlEq_eq (a b : Cell) (hb : b ≠ .null) : sqlEq a b = decide (a = b) := by
  unfold sqlEq
  by_cases h : a = b
  · subst h; simp [hb]
  · simp [h]

theorem firstIdx_none {α : Type} (p : α → Bool) (l : List α) (h : firstIdx p l = none) :
    l.filter p = [] := by
  induction l with
  | nil => rfl
  | cons x xs ih =>
    unfold firstIdx at h
    by_cases hp : p x = true
    · simp [hp] at h
    · simp [hp] at h
      simp [hp, ih h]

theorem firstIdx_some {α : Type} (p : α → Bool) (f : α → α) (hf : ∀ x, p (f x) = p x)
    (l : List α) (i : Nat) (h : firstIdx p l = some i) :
    ∃ x xs, l.filter p = x :: xs ∧ (updateAt i f l).filter p = f x :: xs := by
  induction l generalizing i with
  | nil => simp [firstIdx] at h
  | cons y ys ih =>
    unfold firstIdx at h
    by_cases hp : p y = true
    · simp [hp] at h
      subst h
      exact ⟨y, ys.filter p, by simp [hp], by simp [updateAt, hf, hp]⟩
    · simp [hp] at h
      obtain ⟨j, hj, rfl⟩ := h
      obtain ⟨x, xs, h1, h2⟩ := ih j hj
      exact ⟨x, xs, by simp [hp, h1], by simp [updateAt, hp, h2]⟩

theorem votePred_eq (c e : Cell) (hc : c ≠ .null) (he : e ≠ .null) :
    (fun v : Vote => sqlEq v.candidate_id c && sqlEq v.email e)
      = (fun v : Vote => decide (v.candidate_id = c ∧ v.email = e)) := by
  funext v
  simp [sqlEq_eq _ _ hc, sqlEq_eq _ _ he, Bool.decide_and]

theorem postVote_succeeds (H : Host) (now : Int) (ok : Nat → Bool) (data : Body) (db : DB)
    (c e : Cell) (r : ℚ)
    (ht : data.targetId.truthy = true) (hc : bind data.targetId = some c)
    (he : bind (jsOr data.userEmail (.str guest)) = some e)
    (hcn : c ≠ .null) (hen : e ≠ .null)
    (hr : H.Number data.rating = .fin r) (h0 : ok 0 = true) (h1 : ok 1 = true)
    (huniq : (votesFor c e db.votes).length ≤ 1) :
    (postVote H now ok data db).1.status = 200 ∧
      votesFor c e (postVote H now ok data db).2.votes = [⟨c, .num r, now, e⟩] := by
  unfold postVote
  simp only [hr, ht, hc, he, h0, h1, votePred_eq c e hcn hen]
  cases hfi : firstIdx (fun v : Vote => decide (v.candidate_id = c ∧ v.email = e)) db.votes with
  | none =>
    have hnil := firstIdx_none _ _ hfi
    refine ⟨by simp [text], ?_⟩
    show votesFor c e (db.votes ++ [⟨c, .num r, now, e⟩]) = _
    unfold votesFor
    rw [List.filter_append, hnil]
    simp
  | some i =>
    obtain ⟨x, xs, hx1, hx2⟩ :=
      firstIdx_some (fun v : Vote => decide (v.candidate_id = c ∧ v.email = e))
        (fun v => { v with score := .num r, date := now }) (by intro x; rfl) db.votes i hfi
    have hx : x ∈ db.votes.filter (fun v : Vote => decide (v.candidate_id = c ∧ v.email = e)) := by
      rw [hx1]; simp
    have hxp := (List.mem_filter.mp hx).2
    unfold votesFor at huniq
    rw [hx1] at huniq
    have hxs : xs = [] := by
      cases xs with
      | nil => rfl
      | cons a b => simp at huniq
    subst hxs
    refine ⟨by simp [text], ?_⟩
    show votesFor c e (updateAt i _ db.votes) = _
    unfold votesFor
    rw [hx2]
    simp only [decide_eq_true_eq] at hxp
    rw [hxp.1, hxp.2]

/-- C1 (amended): on a store holding at most one vote row for the pair, two successive
vote requests for the same truthy target and the same voter, with finite ratings `r1`
then `r2`, whose store statements all succeed and whose target and identity the store
does not hold as NULL, are both answered 200 and leave exactly one row for the pair,
with score `r2`.  The pair is the bound target and the bound identity
`userEmail || "Гость"`. -/
theorem vote_twice_last_write_wins (H : Host) (now1 now2 : Int) (ok1 ok2 : Nat → Bool)
    (fuel1 fuel2 : Nat) (data1 data2 : Body) (db : DB) (c e : Cell) (r1 r2 : ℚ)
    (hty1 : data1.type = .str "vote") (hty2 : data2.type = .str "vote")
    (hsameT : data2.targetId = data1.targetId) (hsameE : data2.userEmail = data1.userEmail)
    (ht : data1.targetId.truthy = true)
    (hc : bind data1.targetId = some c)
    (he : bind (jsOr data1.userEmail (.str "Гость")) = some e)
    (hcn : c ≠ .null) (hen : e ≠ .null)
    (hr1 : H.Number data1.rating = .fin r1) (hr2 : H.Number data2.rating = .fin r2)
    (hok1 : ok1 0 = true ∧ ok1 1 = true) (hok2 : ok2 0 = true ∧ ok2 1 = true)
    (huniq : (votesFor c e db.votes).length ≤ 1) :
    ∃ a1 a2 db1 db2 v,
      handlePost H now1 ok1 fuel1 data1 (some db) = some (a1, some db1) ∧
      handlePost H now2 ok2 fuel2 data2 (some db1) = some (a2, some db2) ∧
      a1.status = 200 ∧ a2.status = 200 ∧
      votesFor c e db2.votes = [v] ∧ v.score = .num r2 := by
  have s1 := postVote_succeeds H now1 ok1 data1 db c e r1 ht hc he hcn hen hr1 hok1.1 hok1.2
    huniq
  have huniq1 : (votesFor c e (postVote H now1 ok1 data1 db).2.votes).length ≤ 1 := by
    rw [s1.2]; simp
  have s2 := postVote_succeeds H now2 ok2 data2 (postVote H now1 ok1 data1 db).2 c e r2
    (by rw [hsameT]; exact ht) (by rw [hsameT]; exact hc) (by rw [hsameE]; exact he)
    hcn hen hr2 hok2.1 hok2.2 huniq1
  exact ⟨_, _, _, _, ⟨c, .num r2, now2, e⟩,
    handlePost_vote H now1 ok1 fuel1 data1 db hty1,
    handlePost_vote H now2 ok2 fuel2 data2 _ hty2, s1.1, s2.1, s2.2, rfl⟩

/-- C1 (amended), at a concrete input: a guest rates `c1` with 4 and then with 5. -/
theorem vote_twice_last_write_wins_witness :
    ∃ a1 a2 db1 db2 v,
      handlePost sampleHost 10 (fun _ => true) 0
        { type := .str "vote", targetId := .str "c1", rating := .num (.fin 4) }
        (some DB.empty) = some (a1, some db1) ∧
      handlePost sampleHost 20 (fun _ => true) 0
        { type := .str "vote", targetId := .str "c1", rating := .num (.fin 5) }
        (some db1) = some (a2, some db2) ∧
      a1.status = 200 ∧ a2.status = 200 ∧
      votesFor (.text "c1") (.text "Гость") db2.votes = [v] ∧ v.score = .num 5 :=
  vote_twice_last_write_wins sampleHost 10 20 (fun _ => true) (fun _ => true) 0 0
    { type := .str "vote", targetId := .str "c1", rating := .num (.fin 4) }
    { type := .str "vote", targetId := .str "c1", rating := .num (.fin 5) }
    DB.empty (.text "c1") (.text "Гость") 4 5 rfl rfl rfl rfl (by decide) rfl (by decide)
    (by decide) (by decide) rfl rfl ⟨rfl, rfl⟩ ⟨rfl, rfl⟩ (by decide)

/-- C1 as stated fails in two ways.  When the store throws: the guest's first vote
(rating 4) is saved, the `UPDATE` of the second vote (rating 5) throws and is answered
500, and the single row keeps the score 4.  When the target is a number the store
holds as NULL: two guest votes for the target `1e400`, read as `Infinity` and truthy,
with every statement succeeding, are both inserted (`candidate_id = ?` never matches
NULL), so the pair has two rows. -/
theorem vote_twice_not_last_write_wins :
    (¬ ∃ a1 a2 db1 db2 v,
      handlePost sampleHost 10 (fun _ => true) 0
        { type := .str "vote", targetId := .str "c1", rating := .num (.fin 4) }
        (some DB.empty) = some (a1, some db1) ∧
      handlePost sampleHost 20 (fun k => decide (k = 0)) 0
        { type := .str "vote", targetId := .str "c1", rating := .num (.fin 5) }
        (some db1) = some (a2, some db2) ∧
      votesFor (.text "c1") (.text "Гость") db2.votes = [v] ∧ v.score = .num 5) ∧
    (¬ ∃ a1 a2 db1 db2 v,
      handlePost sampleHost 10 (fun _ => true) 0
        { type := .str "vote", targetId := .num (.inf false), rating := .num (.fin 4) }
        (some DB.empty) = some (a1, some db1) ∧
      handlePost sampleHost 20 (fun _ => true) 0
        { type := .str "vote", targetId := .num (.inf false), rating := .num (.fin 5) }
        (some db1) = some (a2, some db2) ∧
      votesFor .null (.text "Гость") db2.votes = [v]) := by
  constructor
  · rintro ⟨a1, a2, db1, db2, v, h1, h2, h3, h4⟩
    have e1 : handlePost sampleHost 10 (fun _ => true) 0
        { type := .str "vote", targetId := .str "c1", rating := .num (.fin 4) }
        (some DB.empty)
        = some (⟨200, .text "Vote saved"⟩,
            some ⟨[], [⟨.text "c1", .num 4, 10, .text "Гость"⟩], [], []⟩) := by decide
    rw [e1] at h1
    cases h1
    have e2 : handlePost sampleHost 20 (fun k => decide (k = 0)) 0
        { type := .str "vote", targetId := .str "c1", rating := .num (.fin 5) }
        (some ⟨[], [⟨.text "c1", .num 4, 10, .text "Гость"⟩], [], []⟩)
        = some (⟨500, .error⟩,
            some ⟨[], [⟨.text "c1", .num 4, 10, .text "Гость"⟩], [], []⟩) := by decide
    rw [e2] at h2
    cases h2
    have e3 : votesFor (.text "c1") (.text "Гость") [⟨.text "c1", .num 4, 10, .text "Гость"⟩]
        = [⟨.text "c1", .num 4, 10, .text "Гость"⟩] := by decide
    rw [e3] at h3
    cases h3
    revert h4
    decide
  · rintro ⟨a1, a2, db1, db2, v, h1, h2, h3⟩
    have e1 : handlePost sampleHost 10 (fun _ => true) 0
        { type := .str "vote", targetId := .num (.inf false), rating := .num (.fin 4) }
        (some DB.empty)
        = some (⟨200, .text "Vote saved"⟩,
            some ⟨[], [⟨.null, .num 4, 10, .text "Гость"⟩], [], []⟩) := by decide
    rw [e1] at h1
    cases h1
    have e2 : handlePost sampleHost 20 (fun _ => true) 0
        { type := .str "vote", targetId := .num (.inf false), rating := .num (.fin 5) }
        (some ⟨[], [⟨.null, .num 4, 10, .text "Гость"⟩], [], []⟩)
        = some (⟨200, .text "Vote saved"⟩,
            some ⟨[], [⟨.null, .num 4, 10, .text "Гость"⟩, ⟨.null, .num 5, 20, .text "Гость"⟩],
              [], []⟩) := by decide
    rw [e2] at h2
    cases h2
    have e3 : votesFor .null (.text "Гость")
        [⟨.null, .num 4, 10, .text "Гость"⟩, ⟨.null, .num 5, 20, .text "Гость"⟩]
        = [⟨.null, .num 4, 10, .text "Гость"⟩, ⟨.null, .num 5, 20, .text "Гость"⟩] := by decide
    rw [e3] at h3
    cases h3

theorem vote_byte_array_target :
    handlePost sampleHost 10 (fun _ => true) 0
        { type := .str "vote", targetId := .arr [1, 2], rating := .num (.fin 4) }
        (some DB.empty)
      = some (⟨200, .text "Vote saved"⟩,
          some ⟨[], [⟨.blob [1, 2], .num 4, 10, .text "Гость"⟩], [], []⟩) ∧
    handlePost sampleHost 20 (fun _ => true) 0
        { type := .str "vote", targetId := .arr [1, 2], rating := .num (.fin 5) }
        (some ⟨[], [⟨.blob [1, 2], .num 4, 10, .text "Гость"⟩], [], []⟩)
      = some (⟨200, .text "Vote updated"⟩,
          some ⟨[], [⟨.blob [1, 2], .num 5, 20, .text "Гость"⟩], [], []⟩) ∧
    handlePost sampleHost 10 (fun _ => true) 0
        { type := .str "vote", targetId := .arr [300], rating := .num (.fin 4) }
        (some DB.empty)
      = some (⟨500, .error⟩, some DB.empty) := by
  refine ⟨?_, ?_, ?_⟩ <;> decide

/-! ## The uniqueness invariant of votes -/

theorem updateAt_filter_length {α : Type} (q : α → Bool) (f : α → α) (hf : ∀ x, q (f x) = q x)
    (i : Nat) (l : List α) : ((updateAt i f l).filter q).length = (l.filter q).length := by
  induction l generalizing i with
  | nil => simp [updateAt]
  | cons y ys ih =>
    cases i with
    | zero =>
      simp only [updateAt, List.filter_cons, hf]
      split <;> simp
    | succ j =>
      simp only [updateAt, List.filter_cons]
      split <;> simp [ih j]

theorem boostLoop_appends (ok : Nat → Bool) (row : Vote) (n : JNum) (fuel i k : Nat)
    (votes : List Vote) (flag : Bool) (votes' : List Vote)
    (h : boostLoop ok row n fuel i k votes = some (flag, votes')) :
    ∃ m, votes' = votes ++ List.replicate m row := by
  induction fuel generalizing i k votes with
  | zero => simp [boostLoop] at h
  | succ fuel ih =>
    unfold boostLoop at h
    by_cases ha : n.above i = true
    · by_cases hk : ok k = true
      · rw [if_pos ha, if_pos hk] at h
        obtain ⟨m, hm⟩ := ih _ _ _ h
        exact ⟨m + 1, by simp [hm, List.replicate_succ]⟩
      · rw [if_pos ha, if_neg hk] at h
        cases h
        exact ⟨0, by simp⟩
    · rw [if_neg ha] at h
      cases h
      exact ⟨0, by simp⟩

theorem postVote_state (H : Host) (now : Int) (ok : Nat → Bool) (data : Body) (db : DB) :
    (postVote H now ok data db).2 = db ∨
    (∃ i r, (postVote H now ok data db).2 =
      { db with votes := updateAt i (fun v => { v with score := .num r, date := now }) db.votes }) ∨
    (∃ c e r,
      firstIdx (fun v : Vote => sqlEq v.candidate_id c && sqlEq v.email e) db.votes = none ∧
      (postVote H now ok data db).2 = { db with votes := db.votes ++ [⟨c, .num r, now, e⟩] }) := by
  cases hN : H.Number data.rating with
  | nan => left; simp [postVote, hN]
  | inf b => left; simp [postVote, hN]
  | fin rating =>
    by_cases ht : data.targetId.truthy = true
    swap
    · left; simp [postVote, hN, ht]
    cases hc : bind data.targetId with
    | none => left; simp [postVote, hN, ht, hc]
    | some c =>
      cases he : bind (jsOr data.userEmail (.str guest)) with
      | none => left; simp [postVote, hN, ht, hc, he]
      | some e =>
        by_cases h0 : ok 0 = true
        swap
        · left; simp [postVote, hN, ht, hc, he, h0]
        cases hfi : firstIdx (fun v : Vote => sqlEq v.candidate_id c && sqlEq v.email e)
            db.votes with
        | some i =>
          by_cases h1 : ok 1 = true
          · right; left
            refine ⟨i, rating, ?_⟩
            simp only [postVote, hN, ht, hc, he, h0, h1, hfi]
            rfl
          · left
            simp only [postVote, hN, ht, hc, he, h0, h1, hfi]
            simp
        | none =>
          by_cases h1 : ok 1 = true
          · right; right
            refine ⟨c, e, rating, hfi, ?_⟩
            simp only [postVote, hN, ht, hc, he, h0, h1, hfi]
            rfl
          · left
            simp only [postVote, hN, ht, hc, he, h0, h1, hfi]
            simp

theorem postVote_keeps_unique (H : Host) (now : Int) (ok : Nat → Bool) (data : Body) (db : DB)
    (c0 e0 : Cell) (hc0 : c0 ≠ .null) (he0 : e0 ≠ .null)
    (h : (votesFor c0 e0 db.votes).length ≤ 1) :
    (votesFor c0 e0 (postVote H now ok data db).2.votes).length ≤ 1 := by
  rcases postVote_state H now ok data db with hs | ⟨i, r, hs⟩ | ⟨c, e, r, hfi, hs⟩
  · rw [hs]; exact h
  · rw [hs]
    show (votesFor c0 e0 (updateAt _ _ db.votes)).length ≤ 1
    unfold votesFor at h ⊢
    rw [updateAt_filter_length _ _ (by intro x; rfl)]
    exact h
  · rw [hs]
    show (votesFor c0 e0 (db.votes ++ [⟨c, .num r, now, e⟩])).length ≤ 1
    by_cases hce : c = c0 ∧ e = e0
    · obtain ⟨rfl, rfl⟩ := hce
      rw [votePred_eq c e hc0 he0] at hfi
      have hnil := firstIdx_none _ _ hfi
      unfold votesFor
      rw [List.filter_append, hnil]
      simp
    · unfold votesFor at h ⊢
      rw [List.filter_append]
      have : List.filter (fun v : Vote => decide (v.candidate_id = c0 ∧ v.email = e0))
          [⟨c, .num r, now, e⟩] = [] := by
        simp only [List.filter_cons, List.filter_nil, hce, decide_False]
        rfl
      rw [this]
      simpa using h

theorem postAdminBoost_state (H : Host) (now : Int) (ok : Nat → Bool) (fuel : Nat)
    (data : Body) (db : DB) (r : Response × DB)
    (hr : postAdminBoost H now ok fuel data db = some r) :
    r.2 = db ∨ ∃ c n flag votes',
      boostLoop ok ⟨c, .num 5, now, .text "Admin"⟩ n fuel 0 0 db.votes = some (flag, votes') ∧
      r.2 = { db with votes := votes' } := by
  unfold postAdminBoost at hr
  simp only [] at hr
  generalize (if (H.parseInt data.count).truthy = true then H.parseInt data.count
    else JNum.fin 0) = n at hr
  by_cases ha : data.auth ≠ .str AUTH_KEY
  · rw [if_pos ha] at hr; cases hr; left; rfl
  · rw [if_neg ha] at hr
    by_cases hg : (!data.targetId.truthy || n.leZero) = true
    · rw [if_pos hg] at hr; cases hr; left; rfl
    · rw [if_neg hg] at hr
      cases hb : bind data.targetId with
      | none => rw [hb] at hr; cases hr; left; rfl
      | some c =>
        rw [hb] at hr
        simp only [] at hr
        cases hl : boostLoop ok ⟨c, .num 5, now, .text "Admin"⟩ n fuel 0 0 db.votes with
        | none => rw [hl] at hr; simp at hr
        | some p =>
          obtain ⟨flag, votes'⟩ := p
          rw [hl] at hr
          right
          refine ⟨c, n, flag, votes', hl, ?_⟩
          cases flag <;> simp only [] at hr <;> cases hr <;> rfl

theorem postAdminBoost_keeps_unique (H : Host) (now : Int) (ok : Nat → Bool) (fuel : Nat)
    (data : Body) (db : DB) (r : Response × DB) (c0 e0 : Cell) (he0 : e0 ≠ .text "Admin")
    (hr : postAdminBoost H now ok fuel data db = some r)
    (h : (votesFor c0 e0 db.votes).length ≤ 1) :
    (votesFor c0 e0 r.2.votes).length ≤ 1 := by
  rcases postAdminBoost_state H now ok fuel data db r hr with hs | ⟨c, n, flag, votes', hl, hs⟩
  · rw [hs]; exact h
  · obtain ⟨m, hm⟩ := boostLoop_appends ok _ n fuel 0 0 db.votes flag votes' hl
    rw [hs, hm]
    show (votesFor c0 e0 (db.votes ++ List.replicate m _)).length ≤ 1
    unfold votesFor at h ⊢
    rw [List.filter_append]
    have : List.filter (fun v : Vote => decide (v.candidate_id = c0 ∧ v.email = e0))
        (List.replicate m ⟨c, .num 5, now, .text "Admin"⟩) = [] := by
      rw [List.filter_eq_nil_iff]
      intro a ha
      rw [List.eq_of_mem_replicate ha]
      simp [Ne.symm he0]
    rw [this]
    simpa using h

theorem postComment_votes (now : Int) (ok : Nat → Bool) (data : Body) (db : DB) :
    (postComment now ok data db).2.votes = db.votes := by
  unfold postComment
  simp only []
  repeat' split
  all_goals rfl

theorem postAddCandidate_votes (ok : Nat → Bool) (data : Body) (db : DB) :
    (postAddCandidate ok data db).2.votes = db.votes := by
  unfold postAddCandidate
  simp only []
  repeat' split
  all_goals rfl

theorem postUser_votes (ok : Nat → Bool) (data : Body) (db : DB) :
    (postUser ok data db).2.votes = db.votes := by
  unfold postUser
  simp only []
  repeat' split
  all_goals rfl

theorem handlePost_keeps_unique (H : Host) (now : Int) (ok : Nat → Bool) (fuel : Nat)
    (data : Body) (db db' : DB) (r : Response) (c e : Cell)
    (hc : c ≠ .null) (hen : e ≠ .null) (he : e ≠ .text "Admin")
    (hstep : handlePost H now ok fuel data (some db) = some (r, some db'))
    (h : (votesFor c e db.votes).length ≤ 1) : (votesFor c e db'.votes).length ≤ 1 := by
  by_cases hv : data.type = .str "vote"
  · rw [handlePost_vote H now ok fuel data db hv] at hstep
    cases hstep
    exact postVote_keeps_unique H now ok data db c e hc hen h
  by_cases hcm : data.type = .str "comment"
  · rw [handlePost_comment H now ok fuel data db hcm] at hstep
    cases hstep
    rw [postComment_votes]; exact h
  by_cases ha : data.type = .str "add_candidate"
  · rw [handlePost_add_candidate H now ok fuel data db ha] at hstep
    cases hstep
    rw [postAddCandidate_votes]; exact h
  by_cases hb : data.type = .str "admin_boost"
  · rw [handlePost_admin_boost H now ok fuel data db hb] at hstep
    cases hpb : postAdminBoost H now ok fuel data db with
    | none => rw [hpb] at hstep; simp at hstep
    | some x =>
      rw [hpb] at hstep
      simp only [Option.map_some', Option.some.injEq, Prod.mk.injEq] at hstep
      rw [← hstep.2]
      exact postAdminBoost_keeps_unique H now ok fuel data db x c e he hpb h
  by_cases hu : data.type = .str "user" ∨ data.type = .str "user_register"
  · rw [handlePost_user H now ok fuel data db hu] at hstep
    cases hstep
    rw [postUser_votes]; exact h
  · simp only [not_or] at hu
    simp [handlePost, hv, hcm, ha, hb, hu.1, hu.2] at hstep
    rw [← hstep.2]
    exact h

/-- C2 (amended): in every store state reachable from the empty store by POST requests
of any type, with store statements failing or not, the votes table holds at most one row
for each pair `(candidate_id, email)` whose email is not the admin sentinel `"Admin"`
and neither of whose components is NULL. -/
theorem vote_pairs_unique (H : Host) (db : DB) (hreach : Reachable H db)
    (c e : Cell) (hc : c ≠ .null) (hen : e ≠ .null) (he : e ≠ .text "Admin") :
    (votesFor c e db.votes).length ≤ 1 := by
  induction hreach with
  | empty => simp [votesFor, DB.empty]
  | post db db' now ok fuel data r _ hstep ih =>
    exact handlePost_keeps_unique H now ok fuel data db db' r c e hc hen he hstep ih

/-- C2 (amended), at a concrete reachable state: the store after one guest vote. -/
theorem vote_pairs_unique_witness :
    Reachable sampleHost ⟨[], [⟨.text "c1", .num 4, 10, .text "Гость"⟩], [], []⟩ ∧
      Cell.text "c1" ≠ .null ∧ Cell.text "Гость" ≠ .null ∧ Cell.text "Гость" ≠ .text "Admin" ∧
      (votesFor (.text "c1") (.text "Гость")
        (DB.votes ⟨[], [⟨.text "c1", .num 4, 10, .text "Гость"⟩], [], []⟩)).length ≤ 1 :=
  have hreach : Reachable sampleHost ⟨[], [⟨.text "c1", .num 4, 10, .text "Гость"⟩], [], []⟩ :=
    Reachable.post DB.empty _ 10 (fun _ => true) 0
      { type := .str "vote", targetId := .str "c1", rating := .num (.fin 4) }
      ⟨200, .text "Vote saved"⟩ Reachable.empty (by decide)
  ⟨hreach, by decide, by decide, by decide,
    vote_pairs_unique sampleHost _ hreach (.text "c1") (.text "Гость") (by decide) (by decide)
      (by decide)⟩

/-- C2 as stated fails in two ways.  One `admin_boost` with count 2 on the empty store
leaves two vote rows for the pair `("c1", "Admin")`.  Two guest votes for the target
`1e400`, read as `Infinity` and stored as NULL, leave two rows for the pair
`(NULL, "Гость")`. -/
theorem vote_pairs_not_unique :
    (∃ db, Reachable sampleHost db ∧
      2 ≤ (votesFor (.text "c1") (.text "Admin") db.votes).length) ∧
    (∃ db, Reachable sampleHost db ∧
      2 ≤ (votesFor .null (.text "Гость") db.votes).length) := by
  constructor
  · refine ⟨⟨[], [⟨.text "c1", .num 5, 10, .text "Admin"⟩,
      ⟨.text "c1", .num 5, 10, .text "Admin"⟩], [], []⟩, ?_, by decide⟩
    exact Reachable.post DB.empty _ 10 (fun _ => true) 3
      { type := .str "admin_boost", auth := .str "ZarechyeMax2024", targetId := .str "c1",
        count := .num (.fin 2) } ⟨200, .text "Boost applied: 2 votes"⟩ Reachable.empty
      (by decide)
  · refine ⟨⟨[], [⟨.null, .num 4, 10, .text "Гость"⟩, ⟨.null, .num 5, 20, .text "Гость"⟩],
      [], []⟩, ?_, by decide⟩
    have h1 : Reachable sampleHost ⟨[], [⟨.null, .num 4, 10, .text "Гость"⟩], [], []⟩ :=
      Reachable.post DB.empty _ 10 (fun _ => true) 0
        { type := .str "vote", targetId := .num (.inf false), rating := .num (.fin 4) }
        ⟨200, .text "Vote saved"⟩ Reachable.empty (by decide)
    exact Reachable.post _ _ 20 (fun _ => true) 0
      { type := .str "vote", targetId := .num (.inf false), rating := .num (.fin 5) }
      ⟨200, .text "Vote saved"⟩ h1 (by decide)

/-! ## The comment cooldown -/

theorem getLast?_filter_split {α : Type} (p : α → Bool) (l : List α) (c : α)
    (h : (l.filter p).getLast? = some c) :
    ∃ pre post, l = pre ++ c :: post ∧ p c = true ∧ ∀ x ∈ post, p x = false := by
  induction l using List.reverseRecOn with
  | nil => simp at h
  | append_singleton xs a ih =>
    by_cases hp : p a = true
    · rw [List.filter_append] at h
      have ha : List.filter p [a] = [a] := by simp [hp]
      rw [ha, List.getLast?_concat] at h
      cases h
      exact ⟨xs, [], by simp, hp, by simp⟩
    · rw [List.filter_append] at h
      have ha : List.filter p [a] = [] := by simp [hp]
      rw [ha, List.append_nil] at h
      obtain ⟨pre, post, h1, h2, h3⟩ := ih h
      refine ⟨pre, post ++ [a], by simp [h1], h2, ?_⟩
      intro x hx
      rcases List.mem_append.mp hx with hx | hx
      · exact h3 x hx
      · simp at hx; subst hx; simpa using hp

theorem getLast?_filter_of_split {α : Type} (p : α → Bool) (pre post : List α) (c : α)
    (hc : p c = true) (hpost : ∀ x ∈ post, p x = false) :
    ((pre ++ c :: post).filter p).getLast? = some c := by
  have : post.filter p = [] := by
    rw [List.filter_eq_nil_iff]
    intro x hx
    simp [hpost x hx]
  rw [List.filter_append, List.filter_cons, this]
  simp [hc]

theorem lastComment_recent (e : Cell) (he : e ≠ .null) (now : Int) (comments : List Comment) :
    (match lastComment e comments with
      | some row => decide (now - row.date < 5000)
      | none => false) = true ↔ RecentComment e now comments := by
  have hp : (fun c : Comment => sqlEq c.email e) = (fun c : Comment => decide (c.email = e)) := by
    funext c; exact sqlEq_eq _ _ he
  unfold lastComment RecentComment
  rw [hp]
  constructor
  · intro h
    cases hl : (comments.filter (fun c : Comment => decide (c.email = e))).getLast? with
    | none => rw [hl] at h; simp at h
    | some row =>
      rw [hl] at h
      obtain ⟨pre, post, h1, h2, h3⟩ := getLast?_filter_split _ _ _ hl
      refine ⟨pre, row, post, h1, by simpa using h2, ?_, by simpa using h⟩
      intro x hx
      simpa using h3 x hx
  · rintro ⟨pre, last, post, h1, h2, h3, h4⟩
    have := getLast?_filter_of_split (fun c : Comment => decide (c.email = e)) pre post last
      (by simpa using h2) (by intro x hx; simpa using h3 x hx)
    rw [h1, this]
    simpa using h4

theorem postComment_result (now : Int) (ok : Nat → Bool) (data : Body) (db : DB)
    (c t a e : Cell)
    (htid : data.targetId.truthy = true) (htxt : data.text.truthy = true)
    (hc : bind data.targetId = some c) (ht : bind data.text = some t)
    (ha : bind (jsOr data.userName (.str guest)) = some a)
    (he : bind (jsOr data.userEmail (.str guest)) = some e)
    (h0 : ok 0 = true) (h1 : ok 1 = true) :
    postComment now ok data db =
      if (match lastComment e db.comments with
          | some row => decide (now - row.date < 5000)
          | none => false) = true
      then (⟨429, .text "Wait before commenting"⟩, db)
      else (⟨200, .text "Comment saved"⟩,
        { db with comments := db.comments ++ [⟨c, t, a, now, e⟩] }) := by
  unfold postComment
  simp only [htid, htxt, hc, ht, ha, he, h0, h1, Bool.not_true, Bool.or_self,
    Bool.false_eq_true, if_false, text]

/-- C4 (amended): for a comment request with truthy `targetId` and `text` whose store
statements succeed and whose identity `e` (the bound `userEmail || "Гость"`) the store
does not hold as NULL: if the latest comment by `e` is less than 5000 ms old the request
is answered 429 "Wait before commenting" and the store is unchanged; otherwise (no
comment by `e`, or the latest at least 5000 ms old) exactly the row
`(targetId, text, userName, now, e)` is appended, `userName` being the handler's
`data.userName || "Гость"`, and the answer is 200 "Comment saved"; and the answer is 429
exactly in the first case. -/
theorem comment_cooldown (H : Host) (now : Int) (ok : Nat → Bool) (fuel : Nat) (data : Body)
    (db : DB) (c t a e : Cell)
    (hty : data.type = .str "comment")
    (htid : data.targetId.truthy = true) (htxt : data.text.truthy = true)
    (hc : bind data.targetId = some c) (ht : bind data.text = some t)
    (ha : bind (jsOr data.userName (.str "Гость")) = some a)
    (he : bind (jsOr data.userEmail (.str "Гость")) = some e)
    (hen : e ≠ .null)
    (hok : ok 0 = true ∧ ok 1 = true) :
    (RecentComment e now db.comments →
      handlePost H now ok fuel data (some db)
        = some (⟨429, .text "Wait before commenting"⟩, some db)) ∧
    (¬ RecentComment e now db.comments →
      handlePost H now ok fuel data (some db) =
        some (⟨200, .text "Comment saved"⟩,
          some ⟨db.candidates, db.votes, db.comments ++ [⟨c, t, a, now, e⟩], db.users⟩)) ∧
    ((∃ env', handlePost H now ok fuel data (some db)
        = some (⟨429, .text "Wait before commenting"⟩, env')) ↔
      RecentComment e now db.comments) := by
  have hres := postComment_result now ok data db c t a e htid htxt hc ht ha he hok.1 hok.2
  have hiff := lastComment_recent e hen now db.comments
  rw [handlePost_comment H now ok fuel data db hty, hres]
  by_cases hrec : RecentComment e now db.comments
  · have hb := hiff.mpr hrec
    rw [if_pos hb]
    exact ⟨fun _ => rfl, fun hn => absurd hrec hn, ⟨fun _ => hrec, fun _ => ⟨_, rfl⟩⟩⟩
  · have hb : ¬ _ := fun hb => hrec (hiff.mp hb)
    rw [if_neg hb]
    refine ⟨fun hr => absurd hr hrec, fun _ => rfl, ⟨?_, fun hr => absurd hr hrec⟩⟩
    rintro ⟨env', h⟩
    simp at h

/-- C4 (amended), at a concrete input: a guest whose latest comment dates from time 0
comments again at time 5000, exactly the cooldown later, and the comment is saved. -/
theorem comment_cooldown_witness :
    handlePost sampleHost 5000 (fun _ => true) 0
        { type := .str "comment", targetId := .str "c1", text := .str "hi" }
        (some ⟨[], [], [⟨.text "c1", .text "first", .text "Гость", 0, .text "Гость"⟩], []⟩) =
      some (⟨200, .text "Comment saved"⟩,
        some ⟨[], [], [⟨.text "c1", .text "first", .text "Гость", 0, .text "Гость"⟩,
          ⟨.text "c1", .text "hi", .text "Гость", 5000, .text "Гость"⟩], []⟩) :=
  (comment_cooldown sampleHost 5000 (fun _ => true) 0
      { type := .str "comment", targetId := .str "c1", text := .str "hi" }
      ⟨[], [], [⟨.text "c1", .text "first", .text "Гость", 0, .text "Гость"⟩], []⟩
      (.text "c1") (.text "hi") (.text "Гость") (.text "Гость")
      rfl (by decide) (by decide) rfl rfl (by decide) (by decide) (by decide) ⟨rfl, rfl⟩).2.1
    (by
      rintro ⟨pre, last, post, h1, _, _, h4⟩
      have hmem : last ∈ [(⟨.text "c1", .text "first", .text "Гость", 0, .text "Гость"⟩ : Comment)] := by
        rw [show DB.comments ⟨[], [], [⟨.text "c1", .text "first", .text "Гость", 0, .text "Гость"⟩], []⟩
          = [⟨.text "c1", .text "first", .text "Гость", 0, .text "Гость"⟩] from rfl] at h1
        rw [h1]; simp
      rw [List.mem_singleton] at hmem
      subst hmem
      simp at h4)

/-- C4 as stated fails in two ways.  When the store throws: on a store without comments
the request is neither answered 429 nor saved; the `SELECT` throws and the answer is
500.  When the identity is a number the store holds as NULL: a first comment with
`userEmail` `1e400`, read as `Infinity` and truthy, is saved at time 0, and a second one
100 ms later is saved as well instead of being answered 429 (`email = ?` never matches
NULL). -/
theorem comment_cooldown_fails :
    (¬ ((∃ a env', handlePost sampleHost 5000 (fun _ => false) 0
          { type := .str "comment", targetId := .str "c1", text := .str "hi" }
          (some DB.empty) = some (a, env') ∧ a.status = 429) ∨
        handlePost sampleHost 5000 (fun _ => false) 0
          { type := .str "comment", targetId := .str "c1", text := .str "hi" }
          (some DB.empty)
        = some (⟨200, .text "Comment saved"⟩,
            some ⟨[], [], [⟨.text "c1", .text "hi", .text "Гость", 5000, .text "Гость"⟩], []⟩))) ∧
    (handlePost sampleHost 0 (fun _ => true) 0
        { type := .str "comment", userEmail := .num (.inf false), targetId := .str "c1",
          text := .str "one" }
        (some DB.empty)
      = some (⟨200, .text "Comment saved"⟩,
          some ⟨[], [], [⟨.text "c1", .text "one", .text "Гость", 0, .null⟩], []⟩) ∧
      ¬ ∃ a env', handlePost sampleHost 100 (fun _ => true) 0
          { type := .str "comment", userEmail := .num (.inf false), targetId := .str "c1",
            text := .str "two" }
          (some ⟨[], [], [⟨.text "c1", .text "one", .text "Гость", 0, .null⟩], []⟩)
        = some (a, env') ∧ a.status = 429) := by
  have e1 : handlePost sampleHost 5000 (fun _ => false) 0
      { type := .str "comment", targetId := .str "c1", text := .str "hi" }
      (some DB.empty) = some (⟨500, .error⟩, some DB.empty) := by decide
  have e2 : handlePost sampleHost 100 (fun _ => true) 0
      { type := .str "comment", userEmail := .num (.inf false), targetId := .str "c1",
        text := .str "two" }
      (some ⟨[], [], [⟨.text "c1", .text "one", .text "Гость", 0, .null⟩], []⟩)
      = some (⟨200, .text "Comment saved"⟩,
          some ⟨[], [], [⟨.text "c1", .text "one", .text "Гость", 0, .null⟩,
            ⟨.text "c1", .text "two", .text "Гость", 100, .null⟩], []⟩) := by decide
  refine ⟨?_, by decide, ?_⟩
  · rw [e1]
    rintro (⟨a, env', h, hs⟩ | h)
    · cases h
      simp at hs
    · simp at h
  · rw [e2]
    rintro ⟨a, env', h, hs⟩
    cases h
    simp at hs

/-! ## Adding a candidate -/

theorem sqlEq_id (row : Candidate) (hid : row.id ≠ .null) (r : Candidate) :
    sqlEq r.id row.id = decide (r.id = row.id) := sqlEq_eq _ _ hid

theorem upsert_map_same (row : Candidate) (happ : row.approved = .text "НЕТ")
    (l : List Candidate) :
    (l.map (fun r => if decide (r.id = row.id) = true then
        ({ r with name := row.name, photo := row.photo, description := row.description,
                  tg := row.tg, music := row.music, approved := .text "НЕТ" } : Candidate)
      else r)).filter (fun r : Candidate => decide (r.id = row.id))
    = (l.filter (fun r : Candidate => decide (r.id = row.id))).map (fun _ => row) := by
  induction l with
  | nil => rfl
  | cons x xs ih =>
    by_cases hx : x.id = row.id
    · simp only [List.map_cons, List.filter_cons, hx, decide_True, if_true, ih]
      obtain ⟨ri, rn, rp, rd, rt, ra, rm⟩ := row
      simp only at happ hx
      subst happ
      simp [hx]
    · simp only [List.map_cons, List.filter_cons, hx, decide_False, ih]
      simp [hx]

theorem upsert_map_others (row : Candidate) (l : List Candidate) :
    (l.map (fun r => if decide (r.id = row.id) = true then
        ({ r with name := row.name, photo := row.photo, description := row.description,
                  tg := row.tg, music := row.music, approved := .text "НЕТ" } : Candidate)
      else r)).filter (fun r : Candidate => decide (r.id ≠ row.id))
    = l.filter (fun r : Candidate => decide (r.id ≠ row.id)) := by
  induction l with
  | nil => rfl
  | cons x xs ih =>
    by_cases hx : x.id = row.id
    · simp only [List.map_cons, List.filter_cons, hx, decide_True, if_true, ih]
      simp
    · simp only [List.map_cons, List.filter_cons, hx, decide_False, ih]
      simp [hx]

theorem upsertCandidate_same (row : Candidate) (hid : row.id ≠ .null)
    (happ : row.approved = .text "НЕТ") (candidates : List Candidate)
    (huniq : (candidatesWithId row.id candidates).length ≤ 1) :
    candidatesWithId row.id (upsertCandidate row candidates) = [row] := by
  unfold upsertCandidate candidatesWithId at *
  simp only [sqlEq_id row hid]
  by_cases hany : candidates.any (fun r : Candidate => decide (r.id = row.id)) = true
  · rw [if_pos hany, upsert_map_same row happ]
    obtain ⟨x, hx, hxp⟩ := List.any_eq_true.mp hany
    have hmem : x ∈ candidates.filter (fun r : Candidate => decide (r.id = row.id)) :=
      List.mem_filter.mpr ⟨hx, hxp⟩
    cases hf : candidates.filter (fun r : Candidate => decide (r.id = row.id)) with
    | nil => rw [hf] at hmem; simp at hmem
    | cons y ys =>
      rw [hf] at huniq
      cases ys with
      | nil => rfl
      | cons z zs => simp at huniq
  · rw [if_neg hany]
    have hnil : candidates.filter (fun r : Candidate => decide (r.id = row.id)) = [] := by
      rw [List.filter_eq_nil_iff]
      intro a ha hpa
      exact hany (List.any_eq_true.mpr ⟨a, ha, hpa⟩)
    rw [List.filter_append, hnil]
    simp

theorem upsertCandidate_others (row : Candidate) (hid : row.id ≠ .null)
    (candidates : List Candidate) :
    candidatesOtherThan row.id (upsertCandidate row candidates)
      = candidatesOtherThan row.id candidates := by
  unfold upsertCandidate candidatesOtherThan
  simp only [sqlEq_id row hid]
  split
  · exact upsert_map_others row candidates
  · rw [List.filter_append]
    simp

theorem bind_absent_optional (v : JVal) (c : Cell) (hv : v = .undefined)
    (hb : bind (jsOr v (.str "")) = some c) : c = .text "" := by
  subst hv
  simp [jsOr, JVal.truthy, bind] at hb
  exact hb.symm

/-- C5 (amended): on a store with at most one candidate row for the request's id, an
`add_candidate` request with the correct auth and truthy `id` and `name` whose store
statement succeeds and whose id the store does not hold as NULL is answered 200
"Success" and leaves exactly one row with that id; the row carries the request's bound
`name`, `photo`, `description`, `tg` and `music` (the empty string for an absent
optional field) and `approved = "НЕТ"`, whatever it was before; the rows with another id
are unchanged. -/
theorem add_candidate_upsert (H : Host) (now : Int) (ok : Nat → Bool) (fuel : Nat)
    (data : Body) (db : DB) (i n p d t m : Cell)
    (hty : data.type = .str "add_candidate") (hauth : data.auth = .str "ZarechyeMax2024")
    (hid : data.id.truthy = true) (hname : data.name.truthy = true)
    (hi : bind data.id = some i) (hn : bind data.name = some n)
    (hp : bind (jsOr data.photo (.str "")) = some p)
    (hd : bind (jsOr data.description (.str "")) = some d)
    (ht : bind (jsOr data.tg (.str "")) = some t)
    (hm : bind (jsOr data.music (.str "")) = some m)
    (hin : i ≠ .null)
    (hok : ok 0 = true)
    (huniq : (candidatesWithId i db.candidates).length ≤ 1) :
    ∃ db', handlePost H now ok fuel data (some db) = some (⟨200, .text "Success"⟩, some db') ∧
      candidatesWithId i db'.candidates = [⟨i, n, p, d, t, .text "НЕТ", m⟩] ∧
      candidatesOtherThan i db'.candidates = candidatesOtherThan i db.candidates ∧
      (data.photo = .undefined → p = .text "") ∧
      (data.description = .undefined → d = .text "") ∧
      (data.tg = .undefined → t = .text "") ∧
      (data.music = .undefined → m = .text "") := by
  refine ⟨{ db with candidates := upsertCandidate ⟨i, n, p, d, t, .text "НЕТ", m⟩ db.candidates },
    ?_, ?_, ?_, fun h => bind_absent_optional _ _ h hp, fun h => bind_absent_optional _ _ h hd,
    fun h => bind_absent_optional _ _ h ht, fun h => bind_absent_optional _ _ h hm⟩
  · have hauth' : data.auth = .str AUTH_KEY := hauth
    rw [handlePost_add_candidate H now ok fuel data db hty]
    simp [postAddCandidate, hauth', hid, hname, hi, hn, hp, hd, ht, hm, hok, text]
  · exact upsertCandidate_same ⟨i, n, p, d, t, .text "НЕТ", m⟩ hin rfl db.candidates huniq
  · exact upsertCandidate_others ⟨i, n, p, d, t, .text "НЕТ", m⟩ hin db.candidates

/-- C5 (amended), at a concrete input: the approved candidate `c1` is submitted again
with a new name and no optional field. -/
theorem add_candidate_upsert_witness :
    ∃ db', handlePost sampleHost 0 (fun _ => true) 0
        { type := .str "add_candidate", auth := .str "ZarechyeMax2024", id := .str "c1",
          name := .str "New" }
        (some ⟨[⟨.text "c1", .text "Old", .text "p.png", .null, .null, .text "ДА", .null⟩],
          [], [], []⟩) = some (⟨200, .text "Success"⟩, some db') ∧
      candidatesWithId (.text "c1") db'.candidates =
        [⟨.text "c1", .text "New", .text "", .text "", .text "", .text "НЕТ", .text ""⟩] :=
  let ⟨db', h1, h2, _⟩ := add_candidate_upsert sampleHost 0 (fun _ => true) 0
    { type := .str "add_candidate", auth := .str "ZarechyeMax2024", id := .str "c1", name := .str "New" }
    ⟨[⟨.text "c1", .text "Old", .text "p.png", .null, .null, .text "ДА", .null⟩], [], [], []⟩
    (.text "c1") (.text "New") (.text "") (.text "") (.text "") (.text "")
    rfl rfl (by decide) (by decide) rfl rfl (by decide) (by decide) (by decide) (by decide)
    (by decide) rfl (by decide)
  ⟨db', h1, h2⟩

/-- C5 as stated fails in two ways.  When the store throws: the approved candidate `c1`
is submitted again, the upsert throws and is answered 500, and the row for `c1` keeps
its old name and `approved = "ДА"`.  When the id is a number the store holds as NULL:
two `add_candidate` requests with the id `1e400`, read as `Infinity` and truthy, both
insert (a NULL id never conflicts), so the table holds two rows with that id. -/
theorem add_candidate_not_upsert :
    (¬ ∃ a db' row, handlePost sampleHost 0 (fun _ => false) 0
        { type := .str "add_candidate", auth := .str "ZarechyeMax2024", id := .str "c1",
          name := .str "New" }
        (some ⟨[⟨.text "c1", .text "Old", .text "p.png", .null, .null, .text "ДА", .null⟩],
          [], [], []⟩) = some (a, some db') ∧
      candidatesWithId (.text "c1") db'.candidates = [row] ∧ row.approved = .text "НЕТ") ∧
    (¬ ∃ a1 a2 db1 db2 row,
      handlePost sampleHost 0 (fun _ => true) 0
        { type := .str "add_candidate", auth := .str "ZarechyeMax2024", id := .num (.inf false),
          name := .str "One" } (some DB.empty) = some (a1, some db1) ∧
      handlePost sampleHost 0 (fun _ => true) 0
        { type := .str "add_candidate", auth := .str "ZarechyeMax2024", id := .num (.inf false),
          name := .str "Two" } (some db1) = some (a2, some db2) ∧
      candidatesWithId .null db2.candidates = [row]) := by
  constructor
  · have h : handlePost sampleHost 0 (fun _ => false) 0
        { type := .str "add_candidate", auth := .str "ZarechyeMax2024", id := .str "c1",
          name := .str "New" }
        (some ⟨[⟨.text "c1", .text "Old", .text "p.png", .null, .null, .text "ДА", .null⟩],
          [], [], []⟩)
        = some (⟨500, .error⟩,
            some ⟨[⟨.text "c1", .text "Old", .text "p.png", .null, .null, .text "ДА", .null⟩],
              [], [], []⟩) := by decide
    rintro ⟨a, db', row, h1, h2, h3⟩
    rw [h] at h1
    cases h1
    have h4 : candidatesWithId (.text "c1")
        [⟨.text "c1", .text "Old", .text "p.png", .null, .null, .text "ДА", .null⟩]
        = [⟨.text "c1", .text "Old", .text "p.png", .null, .null, .text "ДА", .null⟩] := by
      decide
    rw [h4] at h2
    cases h2
    revert h3
    decide
  · rintro ⟨a1, a2, db1, db2, row, h1, h2, h3⟩
    have e1 : handlePost sampleHost 0 (fun _ => true) 0
        { type := .str "add_candidate", auth := .str "ZarechyeMax2024", id := .num (.inf false),
          name := .str "One" } (some DB.empty)
        = some (⟨200, .text "Success"⟩,
            some ⟨[⟨.null, .text "One", .text "", .text "", .text "", .text "НЕТ", .text ""⟩],
              [], [], []⟩) := by decide
    rw [e1] at h1
    cases h1
    have e2 : handlePost sampleHost 0 (fun _ => true) 0
        { type := .str "add_candidate", auth := .str "ZarechyeMax2024", id := .num (.inf false),
          name := .str "Two" }
        (some ⟨[⟨.null, .text "One", .text "", .text "", .text "", .text "НЕТ", .text ""⟩],
          [], [], []⟩)
        = some (⟨200, .text "Success"⟩,
            some ⟨[⟨.null, .text "One", .text "", .text "", .text "", .text "НЕТ", .text ""⟩,
              ⟨.null, .text "Two", .text "", .text "", .text "", .text "НЕТ", .text ""⟩],
              [], [], []⟩) := by decide
    rw [e2] at h2
    cases h2
    have e3 : candidatesWithId .null
        [⟨.null, .text "One", .text "", .text "", .text "", .text "НЕТ", .text ""⟩,
         ⟨.null, .text "Two", .text "", .text "", .text "", .text "НЕТ", .text ""⟩]
        = [⟨.null, .text "One", .text "", .text "", .text "", .text "НЕТ", .text ""⟩,
           ⟨.null, .text "Two", .text "", .text "", .text "", .text "НЕТ", .text ""⟩] := by
      decide
    rw [e3] at h3
    cases h3

/-! ## Registration -/

theorem users_map_same (e n : Cell) (l : List User) :
    (l.map (fun u => if decide (u.email = e) = true then ({ u with nickname := n } : User)
      else u)).filter (fun u : User => decide (u.email = e))
    = (l.filter (fun u : User => decide (u.email = e))).map (fun _ => ⟨e, n⟩) := by
  induction l with
  | nil => rfl
  | cons x xs ih =>
    by_cases hx : x.email = e
    · simp only [List.map_cons, List.filter_cons, hx, decide_True, if_true, ih]
    · simp only [List.map_cons, List.filter_cons, hx, decide_False, ih]
      simp [hx]

theorem users_map_others (e n : Cell) (l : List User) :
    (l.map (fun u => if decide (u.email = e) = true then ({ u with nickname := n } : User)
      else u)).filter (fun u : User => decide (u.email ≠ e))
    = l.filter (fun u : User => decide (u.email ≠ e)) := by
  induction l with
  | nil => rfl
  | cons x xs ih =>
    by_cases hx : x.email = e
    · simp only [List.map_cons, List.filter_cons, hx, decide_True, if_true, ih]
      simp
    · simp only [List.map_cons, List.filter_cons, hx, decide_False, ih]
      simp [hx]

theorem postUser_result (ok : Nat → Bool) (data : Body) (db : DB) (e n : Cell)
    (hte : (jsOr (jsOr data.userEmail data.email) (.str "")).truthy = true)
    (htn : (jsOr (jsOr data.nickname data.userName) (.str "")).truthy = true)
    (he : bind (jsOr (jsOr data.userEmail data.email) (.str "")) = some e)
    (hn : bind (jsOr (jsOr data.nickname data.userName) (.str "")) = some n)
    (hen : e ≠ .null)
    (h0 : ok 0 = true) (h1 : ok 1 = true) :
    postUser ok data db =
      if db.users.any (fun u => decide (u.email = e)) = true then
        (⟨200, .text "User updated"⟩,
          { db with users := db.users.map (fun u =>
              if decide (u.email = e) = true then { u with nickname := n } else u) })
      else (⟨200, .text "User saved"⟩, { db with users := db.users ++ [⟨e, n⟩] }) := by
  have hs : ∀ u : User, sqlEq u.email e = decide (u.email = e) := fun u => sqlEq_eq _ _ hen
  unfold postUser
  simp only [hte, htn, he, hn, h0, h1, hs, Bool.not_true, Bool.or_self, Bool.false_eq_true,
    if_false, text]

/-- C8 (amended): on a store with at most one users row for the resolved email, a request
of type `user` or `user_register` whose resolved email (`userEmail`, else `email`) and
resolved nickname (`nickname`, else `userName`) are both non-empty, whose store
statements succeed and whose resolved email the store does not hold as NULL is answered
200 and leaves exactly one users row for that email, carrying the resolved nickname; the
rows with another email are unchanged, and the table grows by one row if the email was
new and by none if it existed. -/
theorem register_upsert (H : Host) (now : Int) (ok : Nat → Bool) (fuel : Nat) (data : Body)
    (db : DB) (e n : Cell)
    (hty : data.type = .str "user" ∨ data.type = .str "user_register")
    (hte : (jsOr (jsOr data.userEmail data.email) (.str "")).truthy = true)
    (htn : (jsOr (jsOr data.nickname data.userName) (.str "")).truthy = true)
    (he : bind (jsOr (jsOr data.userEmail data.email) (.str "")) = some e)
    (hn : bind (jsOr (jsOr data.nickname data.userName) (.str "")) = some n)
    (hen : e ≠ .null)
    (hok : ok 0 = true ∧ ok 1 = true)
    (huniq : (usersWithEmail e db.users).length ≤ 1) :
    ∃ a db', handlePost H now ok fuel data (some db) = some (a, some db') ∧
      a.status = 200 ∧
      usersWithEmail e db'.users = [⟨e, n⟩] ∧
      usersOtherThan e db'.users = usersOtherThan e db.users ∧
      db'.users.length = db.users.length + (if usersWithEmail e db.users = [] then 1 else 0) := by
  have hres := postUser_result ok data db e n hte htn he hn hen hok.1 hok.2
  rw [handlePost_user H now ok fuel data db hty, hres]
  unfold usersWithEmail usersOtherThan at *
  by_cases hany : db.users.any (fun u => decide (u.email = e)) = true
  · rw [if_pos hany]
    obtain ⟨x, hx, hxp⟩ := List.any_eq_true.mp hany
    have hmem : x ∈ db.users.filter (fun u : User => decide (u.email = e)) :=
      List.mem_filter.mpr ⟨hx, hxp⟩
    refine ⟨_, _, rfl, rfl, ?_, ?_, ?_⟩
    · show List.filter _ (List.map _ db.users) = _
      rw [users_map_same]
      cases hf : db.users.filter (fun u : User => decide (u.email = e)) with
      | nil => rw [hf] at hmem; simp at hmem
      | cons y ys =>
        rw [hf] at huniq
        cases ys with
        | nil => rfl
        | cons z zs => simp at huniq
    · show List.filter _ (List.map _ db.users) = _
      exact users_map_others e n db.users
    · show (List.map _ db.users).length = _
      have hne : db.users.filter (fun u : User => decide (u.email = e)) ≠ [] := by
        intro h; rw [h] at hmem; simp at hmem
      rw [if_neg hne]
      simp
  · rw [if_neg hany]
    have hnil : db.users.filter (fun u : User => decide (u.email = e)) = [] := by
      rw [List.filter_eq_nil_iff]
      intro a ha hpa
      exact hany (List.any_eq_true.mpr ⟨a, ha, hpa⟩)
    refine ⟨_, _, rfl, rfl, ?_, ?_, ?_⟩
    · show List.filter _ (db.users ++ [⟨e, n⟩]) = _
      rw [List.filter_append, hnil]
      simp
    · show List.filter _ (db.users ++ [⟨e, n⟩]) = _
      rw [List.filter_append]
      simp
    · show (db.users ++ [(⟨e, n⟩ : User)]).length = _
      rw [if_pos hnil]
      simp

/-- C8 (amended), at a concrete input: `a@b`, registered as `Ann`, registers again as
`Anna` through the fallback fields `email` and `userName`. -/
theorem register_upsert_witness :
    ∃ a db', handlePost sampleHost 0 (fun _ => true) 0
        { type := .str "user_register", email := .str "a@b", userName := .str "Anna" }
        (some ⟨[], [], [], [⟨.text "a@b", .text "Ann"⟩, ⟨.text "c@d", .text "Cy"⟩]⟩)
        = some (a, some db') ∧
      a.status = 200 ∧
      usersWithEmail (.text "a@b") db'.users = [⟨.text "a@b", .text "Anna"⟩] ∧
      usersOtherThan (.text "a@b") db'.users = [⟨.text "c@d", .text "Cy"⟩] :=
  let ⟨a, db', h1, h2, h3, h4, _⟩ := register_upsert sampleHost 0 (fun _ => true) 0
    { type := .str "user_register", email := .str "a@b", userName := .str "Anna" }
    ⟨[], [], [], [⟨.text "a@b", .text "Ann"⟩, ⟨.text "c@d", .text "Cy"⟩]⟩
    (.text "a@b") (.text "Anna") (Or.inr rfl) (by decide) (by decide) (by decide) (by decide)
    (by decide) ⟨rfl, rfl⟩ (by decide)
  ⟨a, db', h1, h2, h3, h4.trans (by decide :
    usersOtherThan (.text "a@b")
      (DB.users ⟨[], [], [], [⟨.text "a@b", .text "Ann"⟩, ⟨.text "c@d", .text "Cy"⟩]⟩)
      = [⟨.text "c@d", .text "Cy"⟩])⟩

/-- C8 as stated fails in two ways.  When the store throws: `a@b`, registered as `Ann`,
registers again as `Anna`, the `UPDATE` throws and is answered 500, and the row keeps the
nickname `Ann`.  When the resolved email is a number the store holds as NULL: two
registrations with the email `1e400`, read as `Infinity` and truthy, both insert
(`email = ?` never matches NULL), so the table holds two rows for that email. -/
theorem register_not_upsert :
    (¬ ∃ a db' row, handlePost sampleHost 0 (fun k => decide (k = 0)) 0
        { type := .str "user_register", email := .str "a@b", userName := .str "Anna" }
        (some ⟨[], [], [], [⟨.text "a@b", .text "Ann"⟩]⟩) = some (a, some db') ∧
      usersWithEmail (.text "a@b") db'.users = [row] ∧ row.nickname = .text "Anna") ∧
    (¬ ∃ a1 a2 db1 db2 row,
      handlePost sampleHost 0 (fun _ => true) 0
        { type := .str "user", email := .num (.inf false), nickname := .str "Ann" }
        (some DB.empty) = some (a1, some db1) ∧
      handlePost sampleHost 0 (fun _ => true) 0
        { type := .str "user", email := .num (.inf false), nickname := .str "Anna" }
        (some db1) = some (a2, some db2) ∧
      usersWithEmail .null db2.users = [row]) := by
  constructor
  · have h : handlePost sampleHost 0 (fun k => decide (k = 0)) 0
        { type := .str "user_register", email := .str "a@b", userName := .str "Anna" }
        (some ⟨[], [], [], [⟨.text "a@b", .text "Ann"⟩]⟩)
        = some (⟨500, .error⟩, some ⟨[], [], [], [⟨.text "a@b", .text "Ann"⟩]⟩) := by decide
    rintro ⟨a, db', row, h1, h2, h3⟩
    rw [h] at h1
    cases h1
    have h4 : usersWithEmail (.text "a@b") [⟨.text "a@b", .text "Ann"⟩]
        = [⟨.text "a@b", .text "Ann"⟩] := by decide
    rw [h4] at h2
    cases h2
    revert h3
    decide
  · rintro ⟨a1, a2, db1, db2, row, h1, h2, h3⟩
    have e1 : handlePost sampleHost 0 (fun _ => true) 0
        { type := .str "user", email := .num (.inf false), nickname := .str "Ann" }
        (some DB.empty)
        = some (⟨200, .text "User saved"⟩, some ⟨[], [], [], [⟨.null, .text "Ann"⟩]⟩) := by
      decide
    rw [e1] at h1
    cases h1
    have e2 : handlePost sampleHost 0 (fun _ => true) 0
        { type := .str "user", email := .num (.inf false), nickname := .str "Anna" }
        (some ⟨[], [], [], [⟨.null, .text "Ann"⟩]⟩)
        = some (⟨200, .text "User saved"⟩,
            some ⟨[], [], [], [⟨.null, .text "Ann"⟩, ⟨.null, .text "Anna"⟩]⟩) := by decide
    rw [e2] at h2
    cases h2
    have e3 : usersWithEmail .null [⟨.null, .text "Ann"⟩, ⟨.null, .text "Anna"⟩]
        = [⟨.null, .text "Ann"⟩, ⟨.null, .text "Anna"⟩] := by decide
    rw [e3] at h3
    cases h3

/-! ## The admin boost -/

theorem boostLoop_runs (ok : Nat → Bool) (row : Vote) (n : Nat) (hn : n ≤ 2 ^ 53)
    (hok : ∀ j, j < n → ok j = true) (fuel i : Nat) (votes : List Vote)
    (hi : i ≤ n) (hfuel : n - i < fuel) :
    boostLoop ok row (.fin n) fuel i i votes
      = some (true, votes ++ List.replicate (n - i) row) := by
  induction fuel generalizing i votes with
  | zero => omega
  | succ fuel ih =>
    unfold boostLoop
    by_cases hlt : i < n
    · have habove : (JNum.fin (n : ℚ)).above i = true := by
        simp only [JNum.above, decide_eq_true_eq]
        exact_mod_cast hlt
      have hs : dblSucc i = i + 1 := by
        unfold dblSucc
        rw [if_pos (by omega)]
      rw [if_pos habove, if_pos (hok i hlt), hs, ih (i + 1) (votes ++ [row]) (by omega)
        (by omega)]
      have : n - i = (n - (i + 1)) + 1 := by omega
      rw [this, List.replicate_succ]
      simp
    · have hin : i = n := by omega
      have habove : ¬ (JNum.fin (n : ℚ)).above i = true := by
        simp only [JNum.above, decide_eq_true_eq]
        intro h
        have : i < n := by exact_mod_cast h
        omega
      rw [if_neg habove, hin]
      simp

theorem boostLoop_stalls (row : Vote) (n : ℚ) (hn : (2 : ℚ) ^ 53 < n) (fuel i k : Nat)
    (votes : List Vote) (hi : i ≤ 2 ^ 53) :
    boostLoop (fun _ => true) row (.fin n) fuel i k votes = none := by
  induction fuel generalizing i k votes with
  | zero => rfl
  | succ fuel ih =>
    unfold boostLoop
    have habove : (JNum.fin n).above i = true := by
      simp only [JNum.above, decide_eq_true_eq]
      have : (i : ℚ) ≤ 2 ^ 53 := by exact_mod_cast hi
      linarith
    have hs : dblSucc i ≤ 2 ^ 53 := by
      unfold dblSucc
      split <;> omega
    simp only [habove, if_true]
    exact ih _ _ _ hs

theorem admin_boost_rejects_nonpositive (H : Host) (now : Int) (ok : Nat → Bool) (fuel : Nat)
    (data : Body) (db : DB) (q : ℚ)
    (hty : data.type = .str "admin_boost") (hauth : data.auth = .str AUTH_KEY)
    (hparse : H.parseInt data.count = .fin q) (hq : q ≤ 0) :
    handlePost H now ok fuel data (some db)
      = some (⟨400, .text "Invalid parameters"⟩, some db) := by
  rw [handlePost_admin_boost H now ok fuel data db hty]
  by_cases h0 : q = 0
  · simp [postAdminBoost, hauth, hparse, h0, JNum.truthy, JNum.leZero, text]
  · simp [postAdminBoost, hauth, hparse, h0, hq, JNum.truthy, JNum.leZero, text]

theorem admin_boost_rejects_zero :
    handlePost sampleHost 0 (fun _ => true) 5
        { type := .str "admin_boost", auth := .str "ZarechyeMax2024", targetId := .str "c1",
          count := .num (.fin 0) } (some DB.empty)
      = some (⟨400, .text "Invalid parameters"⟩, some DB.empty) := by
  decide

/-- C6 (amended): an `admin_boost` request with the correct auth, a truthy `targetId` and
a count that `parseInt(_, 10)` reads as `n` with `0 < n ≤ 2 ^ 53`, all of whose store
writes succeed (the target binds and each of the `n` inserts runs), is answered once the
loop has made its `n + 1` tests: the votes table is the previous one, in the same order,
followed by exactly `n` rows `(targetId, 5, now, "Admin")` with one and the same
timestamp; the response is 200 with the text "Boost applied: n votes", `n` written by the
engine's string conversion; the other three tables are unchanged. -/
theorem admin_boost_inserts_count (H : Host) (now : Int) (ok : Nat → Bool) (fuel : Nat)
    (data : Body) (db : DB) (c : Cell) (n : Nat)
    (hty : data.type = .str "admin_boost") (hauth : data.auth = .str "ZarechyeMax2024")
    (htid : data.targetId.truthy = true)
    (hparse : H.parseInt data.count = .fin n) (hn : 0 < n) (hbound : n ≤ 2 ^ 53)
    (hbind : bind data.targetId = some c)
    (hok : ∀ i, i < n → ok i = true)
    (hfuel : n < fuel) :
    handlePost H now ok fuel data (some db) =
      some (⟨200, .text ("Boost applied: " ++ H.ToString (.num (.fin n)) ++ " votes")⟩,
        some ⟨db.candidates,
          db.votes ++ List.replicate n ⟨c, .num 5, now, .text "Admin"⟩,
          db.comments, db.users⟩) := by
  have hloop := boostLoop_runs ok ⟨c, .num 5, now, .text "Admin"⟩ n hbound hok fuel 0
    db.votes (Nat.zero_le n) (by omega)
  have hq : (n : ℚ) ≠ 0 := by exact_mod_cast (Nat.pos_iff_ne_zero.mp hn)
  have hpos : ¬ ((n : ℚ) ≤ 0) := by
    have : (0 : ℚ) < n := by exact_mod_cast hn
    linarith
  have hauth' : data.auth = .str AUTH_KEY := hauth
  rw [handlePost_admin_boost H now ok fuel data db hty]
  simp [postAdminBoost, hauth', htid, hparse, hbind, hq, hpos, hloop, JNum.truthy, JNum.leZero,
    text]

/-- C6 (amended), at a concrete input: a boost of 3 on a store that already holds one
vote. -/
theorem admin_boost_inserts_count_witness :
    handlePost sampleHost 77 (fun _ => true) 4
        { type := .str "admin_boost", auth := .str "ZarechyeMax2024", targetId := .str "c1",
          count := .num (.fin 3) }
        (some ⟨[], [⟨.text "c1", .num 4, 10, .text "a@b"⟩], [], []⟩) =
      some (⟨200, .text "Boost applied: 3 votes"⟩,
        some ⟨[],
          [⟨.text "c1", .num 4, 10, .text "a@b"⟩, ⟨.text "c1", .num 5, 77, .text "Admin"⟩,
            ⟨.text "c1", .num 5, 77, .text "Admin"⟩, ⟨.text "c1", .num 5, 77, .text "Admin"⟩],
          [], []⟩) :=
  (admin_boost_inserts_count sampleHost 77 (fun _ => true) 4
    { type := .str "admin_boost", auth := .str "ZarechyeMax2024", targetId := .str "c1",
      count := .num (.fin 3) }
    ⟨[], [⟨.text "c1", .num 4, 10, .text "a@b"⟩], [], []⟩ (.text "c1") 3
    rfl rfl (by decide) (by decide) (by decide) (by decide) rfl (fun _ _ => rfl)
    (by decide)).trans (by decide)

/-- C6 as stated fails for a count above `2 ^ 53`: with the count 9007199254740994
(`2 ^ 53 + 2`, a double) and every store write succeeding, the counter `i` stops growing
at `2 ^ 53`, the test `i < n` stays true and the request is never answered, however many
loop tests are allowed. -/
theorem admin_boost_never_answers :
    ¬ ∃ fuel r, handlePost sampleHost 0 (fun _ => true) fuel
        { type := .str "admin_boost", auth := .str "ZarechyeMax2024", targetId := .str "c1",
          count := .num (.fin 9007199254740994) } (some DB.empty) = some r := by
  rintro ⟨fuel, r, h⟩
  have hparse : sampleHost.parseInt (.num (.fin 9007199254740994))
      = .fin 9007199254740994 := by decide
  have hstall := boostLoop_stalls ⟨.text "c1", .num 5, 0, .text "Admin"⟩ 9007199254740994
    (by norm_num) fuel 0 0 [] (Nat.zero_le _)
  rw [handlePost_admin_boost sampleHost 0 (fun _ => true) fuel _ DB.empty rfl] at h
  simp only [postAdminBoost] at h
  rw [hparse] at h
  simp [JNum.truthy, JNum.leZero, JVal.truthy, bind, AUTH_KEY, DB.empty, hstall] at h
  obtain ⟨hle, _⟩ := h
  norm_num at hle

/-! ## The snapshot -/

theorem jsOr_empty (c : Cell) : jsOr c.toJVal (.str "") = orEmpty c := by
  cases c with
  | null => rfl
  | num q =>
    by_cases hq : q = 0
    · simp [jsOr, Cell.toJVal, JVal.truthy, JNum.truthy, orEmpty, hq]
    · simp [jsOr, Cell.toJVal, JVal.truthy, JNum.truthy, orEmpty, hq]
  | text s =>
    by_cases hs : s = ""
    · simp [jsOr, Cell.toJVal, JVal.truthy, orEmpty, hs]
    · simp [jsOr, Cell.toJVal, JVal.truthy, orEmpty, hs]
  | blob bytes => rfl

theorem approved_filter (l : List Candidate) :
    l.filter (fun r => sqlEq r.approved (.text "ДА"))
      = l.filter (fun r => decide (r.approved = .text "ДА")) := by
  congr 1
  funext r
  exact sqlEq_eq _ _ (by simp)

/-- C9: when its four queries succeed, GET answers with a snapshot, and the `candidates`
list of any snapshot it answers with consists exactly of the candidate rows whose
`approved` field equals "ДА", in table order, each projected to `id`, `name`, `photo`,
`description`, `tg`, `music` with an absent optional field replaced by the empty
string; so every entry comes from an approved row. -/
theorem snapshot_only_approved (H : Host) (ok : Nat → Bool) (db : DB) :
    ((∀ i, i < 4 → ok i = true) → ∃ s, handleGet H ok (some db) = ⟨200, .snapshot s⟩) ∧
    (∀ s, (handleGet H ok (some db)).body = .snapshot s →
      s.candidates
          = (db.candidates.filter (fun r => decide (r.approved = .text "ДА"))).map exposed ∧
        ∀ v ∈ s.candidates, ∃ r ∈ db.candidates, r.approved = .text "ДА" ∧ v = exposed r) := by
  constructor
  · intro hok
    have h0 := hok 0 (by decide)
    have h1 := hok 1 (by decide)
    have h2 := hok 2 (by decide)
    have h3 := hok 3 (by decide)
    simp [handleGet, h0, h1, h2, h3]
  · intro s hs
    have hc : s.candidates
        = (db.candidates.filter (fun r => decide (r.approved = .text "ДА"))).map exposed := by
      unfold handleGet at hs
      simp only [] at hs
      split at hs
      · simp [storeError] at hs
      · simp only [Payload.snapshot.injEq] at hs
        rw [← hs]
        simp only [approved_filter, jsOr_empty]
        rfl
    refine ⟨hc, ?_⟩
    intro v hv
    rw [hc] at hv
    obtain ⟨r, hr, rfl⟩ := List.mem_map.mp hv
    have := List.mem_filter.mp hr
    exact ⟨r, this.1, by simpa using this.2, rfl⟩

/-- C9, at a concrete store: of an approved and a pending candidate only the approved one
is listed, its NULL optional fields shown as empty strings. -/
theorem snapshot_only_approved_witness :
    (handleGet sampleHost (fun _ => true)
        (some ⟨[⟨.text "c1", .text "Ann", .text "a.png", .null, .null, .text "ДА", .null⟩,
                ⟨.text "c2", .text "Bo", .null, .null, .null, .text "НЕТ", .null⟩],
          [], [], []⟩)).body
      = .snapshot ⟨[⟨.str "c1", .str "Ann", .str "a.png", .str "", .str "", .str ""⟩], [], []⟩ ∧
    Snapshot.candidates ⟨[⟨.str "c1", .str "Ann", .str "a.png", .str "", .str "", .str ""⟩], [], []⟩
      = (List.filter (fun r => decide (r.approved = .text "ДА"))
          [⟨.text "c1", .text "Ann", .text "a.png", .null, .null, .text "ДА", .null⟩,
           ⟨.text "c2", .text "Bo", .null, .null, .null, .text "НЕТ", .null⟩]).map exposed :=
  ⟨by decide,
    ((snapshot_only_approved sampleHost (fun _ => true)
      ⟨[⟨.text "c1", .text "Ann", .text "a.png", .null, .null, .text "ДА", .null⟩,
        ⟨.text "c2", .text "Bo", .null, .null, .null, .text "НЕТ", .null⟩], [], [], []⟩).2
      ⟨[⟨.str "c1", .str "Ann", .str "a.png", .str "", .str "", .str ""⟩], [], []⟩
      (by decide)).1⟩

theorem usersMap_step_other (H : Host) (m : JsObject) (u : User) (e : String)
    (htext : ∃ k, u.email = .text k) (hne : u.email ≠ .text e) :
    (m.set (propertyKey H u.email) u.nickname.toJVal).own.lookup e = m.own.lookup e := by
  obtain ⟨k, hk⟩ := htext
  have hke : k ≠ e := by
    intro h; apply hne; rw [hk, h]
  have hek : (e == k) = false := by
    simpa using fun h : e = k => hke h.symm
  rw [hk]
  unfold JsObject.set propertyKey
  simp only []
  split
  · split <;> rfl
  · simp [List.lookup, hek]

theorem usersMap_fold_other (H : Host) (e : String) (l : List User) (m : JsObject)
    (htext : ∀ u ∈ l, ∃ k, u.email = .text k) (hne : ∀ u ∈ l, u.email ≠ .text e) :
    (l.foldl (fun m row => m.set (propertyKey H row.email) row.nickname.toJVal) m).own.lookup e
      = m.own.lookup e := by
  induction l generalizing m with
  | nil => rfl
  | cons u us ih =>
    rw [List.foldl_cons, ih _ (fun x hx => htext x (List.mem_cons_of_mem _ hx))
      (fun x hx => hne x (List.mem_cons_of_mem _ hx))]
    exact usersMap_step_other H m u e (htext u (List.mem_cons_self _ _))
      (hne u (List.mem_cons_self _ _))

theorem usersMap_fold_hit (H : Host) (e : String) (he : e ≠ "__proto__")
    (pre post : List User) (u : User) (m : JsObject)
    (hu : u.email = .text e)
    (htext : ∀ x ∈ post, ∃ k, x.email = .text k) (hne : ∀ x ∈ post, x.email ≠ .text e) :
    ((pre ++ u :: post).foldl
        (fun m row => m.set (propertyKey H row.email) row.nickname.toJVal) m).own.lookup e
      = some u.nickname.toJVal := by
  rw [List.foldl_append, List.foldl_cons, usersMap_fold_other H e post _ htext hne, hu]
  simp [JsObject.set, propertyKey, he, List.lookup]

theorem usersMap_proto (H : Host) (l : List User) (m : JsObject)
    (hnick : ∀ u ∈ l, ∃ s, u.nickname = .text s) :
    (l.foldl (fun m row => m.set (propertyKey H row.email) row.nickname.toJVal) m).proto
      = m.proto := by
  induction l generalizing m with
  | nil => rfl
  | cons u us ih =>
    rw [List.foldl_cons, ih _ (fun x hx => hnick x (List.mem_cons_of_mem _ hx))]
    obtain ⟨s, hs⟩ := hnick u (List.mem_cons_self _ _)
    rw [hs]
    unfold JsObject.set
    simp only [Cell.toJVal]
    split <;> rfl

theorem filter_split_unique {α : Type} (p : α → Bool) (l : List α) (u : α) (hu : u ∈ l)
    (hp : p u = true) (huniq : (l.filter p).length ≤ 1) :
    ∃ pre post, l = pre ++ u :: post ∧ ∀ x ∈ post, p x = false := by
  obtain ⟨pre, post, rfl⟩ := List.append_of_mem hu
  refine ⟨pre, post, rfl, ?_⟩
  intro x hx
  by_contra hpx
  have hpx : p x = true := by simpa using hpx
  rw [List.filter_append, List.filter_cons, if_pos hp, List.length_append,
    List.length_cons] at huniq
  have : x ∈ post.filter p := List.mem_filter.mpr ⟨hx, hpx⟩
  have hlen : 0 < (post.filter p).length := List.length_pos_of_mem this
  omega

/-- The part of C7 that the code does deliver: when every users row has a text email and a
non-empty text nickname and `e` has at most one users row, and `e` is not the name of a
property inherited from `Object.prototype`, every snapshot entry of a comment by `e`
carries the nickname of the users row for `e` if there is one and the stored author
otherwise. -/
theorem display_name_outside_prototype_keys (H : Host) (ok : Nat → Bool) (db : DB)
    (s : Snapshot) (e : String)
    (hs : (handleGet H ok (some db)).body = .snapshot s)
    (htext : ∀ u ∈ db.users, ∃ k, u.email = .text k)
    (hnick : ∀ u ∈ db.users, ∃ k, u.nickname = .text k ∧ k ≠ "")
    (huniq : (usersWithEmail (.text e) db.users).length ≤ 1)
    (hproto : e ≠ "__proto__") (hkeys : e ∉ objectPrototypeKeys) :
    ∃ nick : Comment → JVal,
      s.comments = db.comments.map (fun r =>
        (r.candidate_id.toJVal, nick r, r.text.toJVal, r.date, r.email.toJVal)) ∧
      ∀ r, r.email = .text e →
        (∀ u ∈ db.users, u.email = .text e → nick r = u.nickname.toJVal) ∧
        ((∀ u ∈ db.users, u.email ≠ .text e) → nick r = r.author.toJVal) := by
  refine ⟨fun r => jsOr ((usersMap H db.users).get (propertyKey H r.email)) r.author.toJVal,
    ?_, ?_⟩
  · unfold handleGet at hs
    simp only [] at hs
    split at hs
    · simp [storeError] at hs
    · simp only [Payload.snapshot.injEq] at hs
      rw [← hs]
  · intro r hr
    simp only [hr, propertyKey]
    constructor
    · intro u hu hue
      obtain ⟨pre, post, hsplit, hpost⟩ :=
        filter_split_unique (fun x : User => decide (x.email = .text e)) db.users u hu
          (by simpa using hue) huniq
      have hlook : (usersMap H db.users).own.lookup e = some u.nickname.toJVal := by
        unfold usersMap
        rw [hsplit]
        apply usersMap_fold_hit H e hproto pre post u _ hue
        · intro x hx
          exact htext x (by rw [hsplit]; simp [hx])
        · intro x hx
          simpa using hpost x hx
      obtain ⟨k, hk, hkne⟩ := hnick u hu
      unfold JsObject.get
      rw [hlook, hk]
      simp [jsOr, Cell.toJVal, JVal.truthy, hkne]
    · intro hnone
      have hlook : (usersMap H db.users).own.lookup e = none := by
        unfold usersMap
        rw [usersMap_fold_other H e db.users _ htext hnone]
        rfl
      have hpr : (usersMap H db.users).proto = .objectPrototype := by
        unfold usersMap
        rw [usersMap_proto H db.users _ (fun u hu => by
          obtain ⟨k, hk, _⟩ := hnick u hu
          exact ⟨k, hk⟩)]
        rfl
      unfold JsObject.get
      rw [hlook, hpr]
      simp [jsOr, objectPrototypeGet, hproto, hkeys, JVal.truthy]

/-- C7 fails on the code: a guest posts a comment as `Bob` with the email
`"constructor"`; no user is registered, yet the snapshot's entry does not carry the
stored author `Bob`: `usersMap["constructor"]` is the function inherited from
`Object.prototype`, which is truthy and becomes the display name. -/
theorem display_name_prototype_key :
    handlePost sampleHost 1000 (fun _ => true) 0
        { type := .str "comment", userEmail := .str "constructor", targetId := .str "c1",
          text := .str "hi", userName := .str "Bob" } (some DB.empty)
      = some (⟨200, .text "Comment saved"⟩,
          some ⟨[], [], [⟨.text "c1", .text "hi", .text "Bob", 1000, .text "constructor"⟩],
            []⟩) ∧
    handleGet sampleHost (fun _ => true)
        (some ⟨[], [], [⟨.text "c1", .text "hi", .text "Bob", 1000, .text "constructor"⟩], []⟩)
      = ⟨200, .snapshot ⟨[], [],
          [(.str "c1", .obj "function constructor", .str "hi", 1000, .str "constructor")]⟩⟩ := by
  constructor <;> decide

end Lookmax
